import Mathlib

/-!
Verification development for the `blur` background-blur renderer
(`imgui-dx11-blur/blur.hpp`).  The renderer state, the per-frame entry point
`render`, and its helper routines are shallowly embedded: GPU handles become
booleans / options recording presence, wall-clock time and float quantities
become rationals, and the outcome of each fallible graphics call is supplied
by a per-frame oracle (`GpuEnv`).  GPU-visible actions (shader compilation,
resource creation, context calls, the composite draw command) are recorded in
an effect trace.  The shader kernel arithmetic is modelled over the reals.
-/

namespace BlurSpec

/-- One observable GPU-side action performed during a `render` call. -/
inductive Effect where
  | shaderCompile
  | createDeviceObject
  | createTexture
  | createView
  | getContext
  | contextCall
  | drawCommand
deriving DecidableEq, Repr

/-- A D3D11 viewport (`D3D11_VIEWPORT`). -/
structure Viewport where
  topLeftX : ℚ
  topLeftY : ℚ
  width : ℚ
  height : ℚ
  minDepth : ℚ
  maxDepth : ℚ
deriving DecidableEq, Repr

/-- Identity of a render-target view that can be bound on the context: either a
host-owned view or one of the renderer's two writable targets. -/
inductive RtvTag where
  | host : Nat → RtvTag
  | tempRtv
  | blurRtv
deriving DecidableEq, Repr

/-- Identity of a shader-resource view bound at pixel-shader slot 0. -/
inductive SrvTag where
  | host : Nat → SrvTag
  | backgroundSrv
  | tempSrv
deriving DecidableEq, Repr

/-- Identity of the bound pixel shader. -/
inductive PsTag where
  | host : Nat → PsTag
  | horizontalPS
  | verticalPS
deriving DecidableEq, Repr

/-- The ambient immediate-context state that `blur.hpp` reads or writes:
output-merger bindings, viewport, and the pipeline bindings set by
`process_blur`. -/
structure Ctx where
  rtv : Option RtvTag
  dsv : Option Nat
  viewport : Viewport
  psSrv0 : Option SrvTag
  psShader : Option PsTag
  vsBound : Bool
  inputLayoutBound : Bool
  topologyTriStrip : Bool
  vertexBufferBound : Bool
  psCb0Bound : Bool
  psSampler0Bound : Bool
  rsStateBound : Bool
  blendStateBound : Bool
  cbContents : Option (ℚ × ℚ × ℚ × ℚ)
deriving DecidableEq, Repr

/-- Per-call oracle for the outcome of each fallible graphics-API call made by
the renderer (shader compilation, object creation, texture/view creation, and
the constant-buffer `Map`). -/
structure GpuEnv where
  vsBlobOk : Bool
  psHBlobOk : Bool
  psVBlobOk : Bool
  createVsOk : Bool
  createPsHOk : Bool
  createPsVOk : Bool
  createLayoutOk : Bool
  createVbOk : Bool
  createCbOk : Bool
  createSamplerOk : Bool
  createBlendOk : Bool
  createRasterOk : Bool
  bgTexOk : Bool
  bgSrvOk : Bool
  tempTexOk : Bool
  tempRtvOk : Bool
  tempSrvOk : Bool
  blurTexOk : Bool
  blurRtvOk : Bool
  blurSrvOk : Bool
  mapOk : Bool
deriving DecidableEq, Repr

/-- `blur_params` from `blur.hpp`: the caller-owned per-frame request.  The
device and draw-list pointers become options (none = nullptr); ImVec2 fields
become pairs of rationals. -/
structure BlurParams where
  device : Option Nat
  draw_list : Bool
  window_pos : ℚ × ℚ
  window_size : ℚ × ℚ
  blur_strength : ℚ := 0.95
  corner_radius : ℚ := 6
  delay_time : ℚ := 0.15
deriving DecidableEq, Repr

/-- The private member state of `blur_renderer`.  Texture handles carry their
creation dimensions; views and pipeline objects are presence booleans. -/
structure RState where
  device_ : Option Nat
  context_ : Bool
  vertex_shader_ : Bool
  pixel_shader_horizontal_ : Bool
  pixel_shader_vertical_ : Bool
  vertex_buffer_ : Bool
  constant_buffer_ : Bool
  input_layout_ : Bool
  sampler_state_ : Bool
  blend_state_ : Bool
  rasterizer_state_ : Bool
  background_capture_ : Option (ℤ × ℤ)
  background_srv_ : Bool
  temp_texture_ : Option (ℤ × ℤ)
  temp_rtv_ : Bool
  temp_srv_ : Bool
  blur_texture_ : Option (ℤ × ℤ)
  blur_rtv_ : Bool
  blur_srv_ : Bool
  width_ : ℤ
  height_ : ℤ
  initialized_ : Bool
  background_captured_ : Bool
  blur_processed_ : Bool
  blur_enabled_last_frame_ : Bool
  blur_enable_time_ : ℚ
  blur_capture_pending_ : Bool
deriving DecidableEq, Repr

/-- The member initializers of `blur_renderer`. -/
def initState : RState where
  device_ := none
  context_ := false
  vertex_shader_ := false
  pixel_shader_horizontal_ := false
  pixel_shader_vertical_ := false
  vertex_buffer_ := false
  constant_buffer_ := false
  input_layout_ := false
  sampler_state_ := false
  blend_state_ := false
  rasterizer_state_ := false
  background_capture_ := none
  background_srv_ := false
  temp_texture_ := none
  temp_rtv_ := false
  temp_srv_ := false
  blur_texture_ := none
  blur_rtv_ := false
  blur_srv_ := false
  width_ := 0
  height_ := 0
  initialized_ := false
  background_captured_ := false
  blur_processed_ := false
  blur_enabled_last_frame_ := false
  blur_enable_time_ := 0
  blur_capture_pending_ := false

/-- `static_cast<int>` on a float value: truncation toward zero. -/
def truncRat (q : ℚ) : ℤ := if q < 0 then ⌈q⌉ else ⌊q⌋

/-- `blur_renderer::reset_state`. -/
def reset_state (r : RState) : RState :=
  { r with background_captured_ := false, blur_processed_ := false,
           blur_capture_pending_ := false }

/-- `blur_renderer::cleanup_render_targets`. -/
def cleanup_render_targets (r : RState) : RState :=
  { r with background_capture_ := none, background_srv_ := false,
           temp_texture_ := none, temp_rtv_ := false, temp_srv_ := false,
           blur_texture_ := none, blur_rtv_ := false, blur_srv_ := false }

/-- `blur_renderer::cleanup_all`. -/
def cleanup_all (r : RState) : RState :=
  { cleanup_render_targets r with
      vertex_shader_ := false, pixel_shader_horizontal_ := false,
      pixel_shader_vertical_ := false, vertex_buffer_ := false,
      constant_buffer_ := false, input_layout_ := false,
      sampler_state_ := false, blend_state_ := false,
      rasterizer_state_ := false, context_ := false,
      initialized_ := false, device_ := none }

/-- Result of a state-mutating member function: updated state, boolean
result, effect trace. -/
structure FnOut where
  r : RState
  ok : Bool
  eff : List Effect
deriving DecidableEq, Repr

/-- Result of a member function that also mutates the immediate context. -/
structure CtxOut where
  r : RState
  ctx : Ctx
  ok : Bool
  eff : List Effect
deriving DecidableEq, Repr

/-- `blur_renderer::initialize_shaders`: three `D3DCompile` calls (all three
always attempted), then short-circuited creation of the vertex shader, the two
pixel shaders, and the input layout.  A failed creation leaves earlier
successfully created objects in place. -/
def initialize_shaders (env : GpuEnv) (r : RState) : FnOut :=
  let compiles : List Effect := [.shaderCompile, .shaderCompile, .shaderCompile]
  if ¬ (env.vsBlobOk ∧ env.psHBlobOk ∧ env.psVBlobOk) then ⟨r, false, compiles⟩
  else if ¬ env.createVsOk then ⟨r, false, compiles ++ [.createDeviceObject]⟩
  else
    let r1 := { r with vertex_shader_ := true }
    if ¬ env.createPsHOk then
      ⟨r1, false, compiles ++ [.createDeviceObject, .createDeviceObject]⟩
    else
      let r2 := { r1 with pixel_shader_horizontal_ := true }
      if ¬ env.createPsVOk then
        ⟨r2, false, compiles ++ [.createDeviceObject, .createDeviceObject, .createDeviceObject]⟩
      else
        let r3 := { r2 with pixel_shader_vertical_ := true }
        if ¬ env.createLayoutOk then
          ⟨r3, false, compiles ++ [.createDeviceObject, .createDeviceObject, .createDeviceObject, .createDeviceObject]⟩
        else
          ⟨{ r3 with input_layout_ := true }, true,
           compiles ++ [.createDeviceObject, .createDeviceObject, .createDeviceObject, .createDeviceObject]⟩

/-- `blur_renderer::initialize_render_states`: sequential creation of vertex
buffer, constant buffer, sampler, blend state, rasterizer state, with an early
`false` return at the first failure (earlier objects are left in place). -/
def initialize_render_states (env : GpuEnv) (r : RState) : FnOut :=
  if ¬ env.createVbOk then ⟨r, false, [.createDeviceObject]⟩
  else
    let r1 := { r with vertex_buffer_ := true }
    if ¬ env.createCbOk then ⟨r1, false, [.createDeviceObject, .createDeviceObject]⟩
    else
      let r2 := { r1 with constant_buffer_ := true }
      if ¬ env.createSamplerOk then
        ⟨r2, false, [.createDeviceObject, .createDeviceObject, .createDeviceObject]⟩
      else
        let r3 := { r2 with sampler_state_ := true }
        if ¬ env.createBlendOk then
          ⟨r3, false, [.createDeviceObject, .createDeviceObject, .createDeviceObject, .createDeviceObject]⟩
        else
          let r4 := { r3 with blend_state_ := true }
          if ¬ env.createRasterOk then
            ⟨r4, false, [.createDeviceObject, .createDeviceObject, .createDeviceObject, .createDeviceObject, .createDeviceObject]⟩
          else
            ⟨{ r4 with rasterizer_state_ := true }, true,
             [.createDeviceObject, .createDeviceObject, .createDeviceObject, .createDeviceObject, .createDeviceObject]⟩

/-- The `create_texture` lambda of `ensure_render_targets`, instantiated for
the capture texture (`D3D11_BIND_SHADER_RESOURCE`, SRV only): create the
texture, then its shader-resource view, stopping at the first failure. -/
def create_texture_bg (env : GpuEnv) (width height : ℤ) (r : RState) : FnOut :=
  if ¬ env.bgTexOk then ⟨r, false, [.createTexture]⟩
  else
    let r1 := { r with background_capture_ := some (width, height) }
    if ¬ env.bgSrvOk then ⟨r1, false, [.createTexture, .createView]⟩
    else ⟨{ r1 with background_srv_ := true }, true, [.createTexture, .createView]⟩

/-- The `create_texture` lambda instantiated for the intermediate texture
(render target + shader resource): texture, then RTV, then SRV. -/
def create_texture_temp (env : GpuEnv) (width height : ℤ) (r : RState) : FnOut :=
  if ¬ env.tempTexOk then ⟨r, false, [.createTexture]⟩
  else
    let r1 := { r with temp_texture_ := some (width, height) }
    if ¬ env.tempRtvOk then ⟨r1, false, [.createTexture, .createView]⟩
    else
      let r2 := { r1 with temp_rtv_ := true }
      if ¬ env.tempSrvOk then ⟨r2, false, [.createTexture, .createView, .createView]⟩
      else ⟨{ r2 with temp_srv_ := true }, true, [.createTexture, .createView, .createView]⟩

/-- The `create_texture` lambda instantiated for the final blur texture
(render target + shader resource): texture, then RTV, then SRV. -/
def create_texture_blur (env : GpuEnv) (width height : ℤ) (r : RState) : FnOut :=
  if ¬ env.blurTexOk then ⟨r, false, [.createTexture]⟩
  else
    let r1 := { r with blur_texture_ := some (width, height) }
    if ¬ env.blurRtvOk then ⟨r1, false, [.createTexture, .createView]⟩
    else
      let r2 := { r1 with blur_rtv_ := true }
      if ¬ env.blurSrvOk then ⟨r2, false, [.createTexture, .createView, .createView]⟩
      else ⟨{ r2 with blur_srv_ := true }, true, [.createTexture, .createView, .createView]⟩

/-- `blur_renderer::ensure_render_targets`: no-op when the capture texture
exists and the stored dimensions match; otherwise release the existing set and
run the three short-circuited `create_texture` calls (a failure leaves the
earlier allocations in place). -/
def ensure_render_targets (env : GpuEnv) (width height : ℤ) (r : RState) : FnOut :=
  if r.background_capture_.isSome ∧ r.width_ = width ∧ r.height_ = height then
    ⟨r, true, []⟩
  else
    let a := create_texture_bg env width height (cleanup_render_targets r)
    if ¬ a.ok then ⟨a.r, false, a.eff⟩
    else
      let b := create_texture_temp env width height a.r
      if ¬ b.ok then ⟨b.r, false, a.eff ++ b.eff⟩
      else
        let c := create_texture_blur env width height b.r
        ⟨c.r, c.ok, a.eff ++ b.eff ++ c.eff⟩

/-- `blur_renderer::capture_background`: fails when no render target is bound
on the context; otherwise copies the back-buffer region into the capture
texture (the pixel copy itself is abstracted) and marks
`background_captured_`. -/
def capture_background (_window_pos _window_size : ℚ × ℚ) (r : RState) (ctx : Ctx) : FnOut :=
  match ctx.rtv with
  | none => ⟨r, false, [.contextCall]⟩
  | some _ =>
      ⟨{ r with background_captured_ := true }, true,
       [.contextCall, .contextCall, .contextCall]⟩

/-- `blur_renderer::process_blur`: guarded by `background_captured_`; saves the
bound RTV/DSV and viewport, uploads the constants, runs the horizontal pass
into the temp target and the vertical pass into the blur target, restores the
saved RTV/DSV/viewport, and unbinds the pixel-shader SRV slot. -/
def process_blur (env : GpuEnv) (strength : ℚ) (r : RState) (ctx : Ctx) : CtxOut :=
  if ¬ r.background_captured_ then ⟨r, ctx, false, []⟩
  else
    let original_rtv := ctx.rtv
    let original_dsv := ctx.dsv
    let original_viewport := ctx.viewport
    let ctx1 :=
      if env.mapOk then
        { ctx with cbContents := some (((r.width_ : ℚ)), ((r.height_ : ℚ)), strength, 0) }
      else ctx
    let ctx2 := { ctx1 with
      vertexBufferBound := r.vertex_buffer_,
      inputLayoutBound := r.input_layout_,
      topologyTriStrip := true,
      vsBound := r.vertex_shader_,
      psCb0Bound := r.constant_buffer_,
      psSampler0Bound := r.sampler_state_,
      rsStateBound := r.rasterizer_state_,
      blendStateBound := r.blend_state_ }
    let ctx3 := { ctx2 with
      viewport := ⟨0, 0, ((r.width_ : ℚ)), ((r.height_ : ℚ)), 0, 1⟩ }
    let ctx4 := { ctx3 with
      rtv := if r.temp_rtv_ then some RtvTag.tempRtv else none,
      dsv := none,
      psShader := if r.pixel_shader_horizontal_ then some PsTag.horizontalPS else none,
      psSrv0 := if r.background_srv_ then some SrvTag.backgroundSrv else none }
    let ctx5 := { ctx4 with
      rtv := if r.blur_rtv_ then some RtvTag.blurRtv else none,
      psShader := if r.pixel_shader_vertical_ then some PsTag.verticalPS else none,
      psSrv0 := if r.temp_srv_ then some SrvTag.tempSrv else none }
    let ctx6 := { ctx5 with
      rtv := original_rtv, dsv := original_dsv,
      viewport := original_viewport, psSrv0 := none }
    ⟨{ r with blur_processed_ := true }, ctx6, true,
     List.replicate (if env.mapOk then 24 else 23) .contextCall⟩

/-- Lines 153-158 of `render`: on a width/height change, release the render
targets, reset the activation state, and store the new dimensions. -/
def preResize (p : BlurParams) (r : RState) : RState :=
  if r.width_ ≠ truncRat p.window_size.1 ∨ r.height_ ≠ truncRat p.window_size.2 then
    { reset_state (cleanup_render_targets r) with
        width_ := truncRat p.window_size.1, height_ := truncRat p.window_size.2 }
  else r

/-- Lines 160-167 of `render`: the activation edges.  A false→true edge resets
state, marks the capture pending and stamps the activation time; a true→false
edge resets state. -/
def edgeStep (sb : Bool) (t : ℚ) (r1 : RState) : RState :=
  if sb ∧ ¬ r1.blur_enabled_last_frame_ then
    { reset_state r1 with blur_capture_pending_ := true, blur_enable_time_ := t }
  else if ¬ sb ∧ r1.blur_enabled_last_frame_ then reset_state r1
  else r1

/-- Lines 169-179 of `render`: the debounced capture + blur attempt.  Once the
delay has elapsed the pending flag is cleared unconditionally, then render
targets are ensured, the background captured, and the blur processed, each
step short-circuiting on failure. -/
def captureBlock (p : BlurParams) (sb : Bool) (t : ℚ) (env : GpuEnv)
    (r2 : RState) (ctx : Ctx) : RState × Ctx × List Effect :=
  if sb ∧ r2.blur_capture_pending_ ∧ ¬ r2.blur_processed_ then
    if p.delay_time ≤ t - r2.blur_enable_time_ then
      let r3 := { r2 with blur_capture_pending_ := false }
      let e := ensure_render_targets env (truncRat p.window_size.1)
        (truncRat p.window_size.2) r3
      if e.ok then
        let c := capture_background p.window_pos p.window_size e.r ctx
        if c.ok then
          let pb := process_blur env p.blur_strength c.r ctx
          (pb.r, pb.ctx, e.eff ++ c.eff ++ pb.eff)
        else (c.r, ctx, e.eff ++ c.eff)
      else (e.r, ctx, e.eff)
    else (r2, ctx, [])
  else (r2, ctx, [])

/-- The body of `blur_renderer::render` after the device/draw-list validation
and the lazy-initialization block: window-size validation, resize detection,
activation edges, the debounced capture + blur attempt, and the composite
draw command. -/
def renderMain (p : BlurParams) (sb : Bool) (t : ℚ) (env : GpuEnv) (r : RState)
    (ctx : Ctx) (acc : List Effect) : CtxOut :=
  if truncRat p.window_size.1 ≤ 0 ∨ truncRat p.window_size.2 ≤ 0 then
    ⟨r, ctx, false, acc⟩
  else
    let step := captureBlock p sb t env (edgeStep sb t (preResize p r)) ctx
    let r4 := { step.1 with blur_enabled_last_frame_ := sb }
    let eff := acc ++ step.2.2 ++
      (if sb && r4.blur_processed_ && r4.blur_srv_ then [Effect.drawCommand] else [])
    ⟨r4, step.2.1, true, eff⟩

/-- `blur_renderer::render`: device/draw-list validation, lazy initialization
on first use or device change (tear-down, `GetImmediateContext`, shader and
fixed-function state creation), then `renderMain`. -/
def render (p : BlurParams) (sb : Bool) (t : ℚ) (env : GpuEnv) (r : RState)
    (ctx : Ctx) : CtxOut :=
  if p.device = none ∨ p.draw_list = false then ⟨r, ctx, false, []⟩
  else if ¬ r.initialized_ ∨ r.device_ ≠ p.device then
    let r1 := { cleanup_all r with device_ := p.device, context_ := true }
    let s := initialize_shaders env r1
    if ¬ s.ok then ⟨s.r, ctx, false, Effect.getContext :: s.eff⟩
    else
      let st := initialize_render_states env s.r
      if ¬ st.ok then ⟨st.r, ctx, false, Effect.getContext :: (s.eff ++ st.eff)⟩
      else
        renderMain p sb t env { st.r with initialized_ := true } ctx
          (Effect.getContext :: (s.eff ++ st.eff))
  else renderMain p sb t env r ctx []

/-- One frame of a multi-frame run: the request, the caller's intent, the
`ImGui::GetTime()` value, the GPU oracle, and the ambient context state at
the moment `render` is called. -/
structure Frame where
  params : BlurParams
  shouldBlur : Bool
  time : ℚ
  env : GpuEnv
  ctx : Ctx
deriving DecidableEq, Repr

/-- `render` applied to one `Frame`. -/
def renderFrame (f : Frame) (r : RState) : CtxOut :=
  render f.params f.shouldBlur f.time f.env r f.ctx

/-- Renderer state before frame `n` of a run starting in state `r0`. -/
def stateFrom (r0 : RState) (fr : Nat → Frame) : Nat → RState
  | 0 => r0
  | n + 1 => (renderFrame (fr n) (stateFrom r0 fr n)).r

/-- The output of frame `n` of a run starting in state `r0`. -/
def outFrom (r0 : RState) (fr : Nat → Frame) (n : Nat) : CtxOut :=
  renderFrame (fr n) (stateFrom r0 fr n)

/-- All eight texture/view creations succeed this frame. -/
def allocOk (env : GpuEnv) : Bool :=
  env.bgTexOk && env.bgSrvOk && env.tempTexOk && env.tempRtvOk && env.tempSrvOk &&
  env.blurTexOk && env.blurRtvOk && env.blurSrvOk

/-- All pipeline-object creations succeed this frame. -/
def initEnvOk (env : GpuEnv) : Bool :=
  env.vsBlobOk && env.psHBlobOk && env.psVBlobOk && env.createVsOk &&
  env.createPsHOk && env.createPsVOk && env.createLayoutOk && env.createVbOk &&
  env.createCbOk && env.createSamplerOk && env.createBlendOk && env.createRasterOk

/-- A well-formed frame: device handle `dev` present, draw list present,
window size `(w, h)`, and a healthy pipeline-initialization environment. -/
def wfFrame (dev : Nat) (w h : ℚ) (f : Frame) : Bool :=
  (f.params.device == some dev) && f.params.draw_list &&
  (f.params.window_size == (w, h)) && initEnvOk f.env

/-- The renderer is initialized for device `dev` at window size `(w, h)`. -/
def steady (dev : Nat) (w h : ℚ) (r : RState) : Bool :=
  r.initialized_ && (r.device_ == some dev) &&
  (r.width_ == truncRat w) && (r.height_ == truncRat h)

/-- Whether a capture + blur attempt made this frame would succeed: render
targets available (already present, or all allocations succeed) and a render
target bound on the host context. -/
def captureSucc (f : Frame) (r : RState) : Bool :=
  (r.background_capture_.isSome || allocOk f.env) && f.ctx.rtv.isSome

/-- All nine pipeline objects are present. -/
def pipelineComplete (r : RState) : Bool :=
  r.vertex_shader_ && r.pixel_shader_horizontal_ && r.pixel_shader_vertical_ &&
  r.vertex_buffer_ && r.constant_buffer_ && r.input_layout_ &&
  r.sampler_state_ && r.blend_state_ && r.rasterizer_state_

/-- The full texture set exists at dimensions `(w, h)`. -/
def fullTexSet (r : RState) (w h : ℤ) : Bool :=
  (r.background_capture_ == some (w, h)) && r.background_srv_ &&
  (r.temp_texture_ == some (w, h)) && r.temp_rtv_ && r.temp_srv_ &&
  (r.blur_texture_ == some (w, h)) && r.blur_rtv_ && r.blur_srv_

/-- No texture of the set exists. -/
def noTexSet (r : RState) : Bool :=
  r.background_capture_.isNone && !r.background_srv_ &&
  r.temp_texture_.isNone && !r.temp_rtv_ && !r.temp_srv_ &&
  r.blur_texture_.isNone && !r.blur_rtv_ && !r.blur_srv_

/-- The view of the renderer state used by the activation state machine. -/
structure ActView where
  pending : Bool
  processed : Bool
  stamp : ℚ
  enabledLast : Bool
deriving DecidableEq, Repr

/-- Activation fields of a renderer state. -/
def actOf (r : RState) : ActView :=
  ⟨r.blur_capture_pending_, r.blur_processed_, r.blur_enable_time_,
   r.blur_enabled_last_frame_⟩

/-- The activation state machine of one `render` call in steady conditions
(no resize, no init): the activation edges, the debounced attempt with
outcome `succ`, and the `blur_enabled_last_frame_` update. -/
def actStep (sb : Bool) (t delay : ℚ) (succ : Bool) (a : ActView) : ActView :=
  let a1 :=
    if sb ∧ ¬ a.enabledLast then
      { a with pending := true, processed := false, stamp := t }
    else if ¬ sb ∧ a.enabledLast then { a with pending := false, processed := false }
    else a
  let a2 :=
    if sb ∧ a1.pending ∧ ¬ a1.processed then
      if delay ≤ t - a1.stamp then { a1 with pending := false, processed := succ }
      else a1
    else a1
  { a2 with enabledLast := sb }

/-- Kernel weight of tap `i` in the two blur shaders:
`exp(-0.5 * (i*i) / (radius*radius*0.5))` with `radius = 4`, the shader float
arithmetic read over the reals. -/
noncomputable def blurWeight (i : ℤ) : ℝ :=
  Real.exp ((-(0.5 * ((i : ℝ) * i))) / (4 * 4 * 0.5))

/-- `total_weight` accumulated by the shader loop over `i ∈ [-4, 4]`. -/
noncomputable def blurTotalWeight : ℝ :=
  ∑ i ∈ Finset.Icc (-4 : ℤ) 4, blurWeight i

/-- The normalized shader output for one color channel, given the sampled
channel value `s i` at tap offset `i`: `(Σ s i * w i) / Σ w i`. -/
noncomputable def blurOutput (s : ℤ → ℝ) : ℝ :=
  (∑ i ∈ Finset.Icc (-4 : ℤ) 4, s i * blurWeight i) / blurTotalWeight

/-! ### Characterization lemmas for the member functions -/

theorem capture_background_none (p s : ℚ × ℚ) (r : RState) (ctx : Ctx)
    (h : ctx.rtv = none) :
    capture_background p s r ctx = ⟨r, false, [.contextCall]⟩ := by
  simp [capture_background, h]

theorem capture_background_some (p s : ℚ × ℚ) (r : RState) (ctx : Ctx)
    (h : ctx.rtv.isSome = true) :
    capture_background p s r ctx =
      ⟨{ r with background_captured_ := true }, true,
       [.contextCall, .contextCall, .contextCall]⟩ := by
  rcases hx : ctx.rtv with _ | x
  · rw [hx] at h; simp at h
  · simp [capture_background, hx]

theorem capture_background_ok (p s : ℚ × ℚ) (r : RState) (ctx : Ctx) :
    (capture_background p s r ctx).ok = ctx.rtv.isSome := by
  rcases hx : ctx.rtv with _ | x <;> simp [capture_background, hx]

theorem initialize_shaders_shape (env : GpuEnv) (r : RState) :
    ∃ b1 b2 b3 b4,
      (initialize_shaders env r).r =
        { r with vertex_shader_ := b1, pixel_shader_horizontal_ := b2,
                 pixel_shader_vertical_ := b3, input_layout_ := b4 } := by
  unfold initialize_shaders
  split_ifs <;> exact ⟨_, _, _, _, rfl⟩

theorem initialize_shaders_eff (env : GpuEnv) (r : RState) (e : Effect)
    (h1 : e ≠ .shaderCompile) (h2 : e ≠ .createDeviceObject) :
    e ∉ (initialize_shaders env r).eff := by
  unfold initialize_shaders
  split_ifs <;> simp [h1, h2]

theorem initialize_shaders_ok_eq (env : GpuEnv) (r : RState)
    (h1 : env.vsBlobOk = true) (h2 : env.psHBlobOk = true) (h3 : env.psVBlobOk = true)
    (h4 : env.createVsOk = true) (h5 : env.createPsHOk = true)
    (h6 : env.createPsVOk = true) (h7 : env.createLayoutOk = true) :
    initialize_shaders env r =
      ⟨{ r with vertex_shader_ := true, pixel_shader_horizontal_ := true,
                pixel_shader_vertical_ := true, input_layout_ := true }, true,
       [.shaderCompile, .shaderCompile, .shaderCompile, .createDeviceObject,
        .createDeviceObject, .createDeviceObject, .createDeviceObject]⟩ := by
  simp [initialize_shaders, h1, h2, h3, h4, h5, h6, h7]

theorem initialize_render_states_shape (env : GpuEnv) (r : RState) :
    ∃ b1 b2 b3 b4 b5,
      (initialize_render_states env r).r =
        { r with vertex_buffer_ := b1, constant_buffer_ := b2,
                 sampler_state_ := b3, blend_state_ := b4,
                 rasterizer_state_ := b5 } := by
  unfold initialize_render_states
  split_ifs <;> exact ⟨_, _, _, _, _, rfl⟩

theorem initialize_render_states_eff (env : GpuEnv) (r : RState) (e : Effect)
    (h1 : e ≠ .createDeviceObject) :
    e ∉ (initialize_render_states env r).eff := by
  unfold initialize_render_states
  split_ifs <;> simp [h1]

theorem initialize_render_states_ok_eq (env : GpuEnv) (r : RState)
    (h1 : env.createVbOk = true) (h2 : env.createCbOk = true)
    (h3 : env.createSamplerOk = true) (h4 : env.createBlendOk = true)
    (h5 : env.createRasterOk = true) :
    initialize_render_states env r =
      ⟨{ r with vertex_buffer_ := true, constant_buffer_ := true,
                sampler_state_ := true, blend_state_ := true,
                rasterizer_state_ := true }, true,
       [.createDeviceObject, .createDeviceObject, .createDeviceObject,
        .createDeviceObject, .createDeviceObject]⟩ := by
  simp [initialize_render_states, h1, h2, h3, h4, h5]

/-- The no-op condition of `ensure_render_targets` as a Bool. -/
def ensureNoop (width height : ℤ) (r : RState) : Bool :=
  r.background_capture_.isSome && (r.width_ == width) && (r.height_ == height)

theorem create_texture_bg_r_eq (env : GpuEnv) (width height : ℤ) (r : RState) :
    (create_texture_bg env width height r).r =
      { r with
          background_capture_ :=
            if env.bgTexOk then some (width, height) else r.background_capture_,
          background_srv_ :=
            if env.bgTexOk && env.bgSrvOk then true else r.background_srv_ } := by
  by_cases h1 : env.bgTexOk = true <;> by_cases h2 : env.bgSrvOk = true <;>
    simp [create_texture_bg, h1, h2]

theorem create_texture_temp_r_eq (env : GpuEnv) (width height : ℤ) (r : RState) :
    (create_texture_temp env width height r).r =
      { r with
          temp_texture_ :=
            if env.tempTexOk then some (width, height) else r.temp_texture_,
          temp_rtv_ := if env.tempTexOk && env.tempRtvOk then true else r.temp_rtv_,
          temp_srv_ :=
            if env.tempTexOk && env.tempRtvOk && env.tempSrvOk then true
            else r.temp_srv_ } := by
  by_cases h1 : env.tempTexOk = true <;> by_cases h2 : env.tempRtvOk = true <;>
    by_cases h3 : env.tempSrvOk = true <;> simp [create_texture_temp, h1, h2, h3]

theorem create_texture_blur_r_eq (env : GpuEnv) (width height : ℤ) (r : RState) :
    (create_texture_blur env width height r).r =
      { r with
          blur_texture_ :=
            if env.blurTexOk then some (width, height) else r.blur_texture_,
          blur_rtv_ := if env.blurTexOk && env.blurRtvOk then true else r.blur_rtv_,
          blur_srv_ :=
            if env.blurTexOk && env.blurRtvOk && env.blurSrvOk then true
            else r.blur_srv_ } := by
  by_cases h1 : env.blurTexOk = true <;> by_cases h2 : env.blurRtvOk = true <;>
    by_cases h3 : env.blurSrvOk = true <;> simp [create_texture_blur, h1, h2, h3]

theorem create_texture_bg_ok (env : GpuEnv) (width height : ℤ) (r : RState) :
    (create_texture_bg env width height r).ok = (env.bgTexOk && env.bgSrvOk) := by
  unfold create_texture_bg
  split_ifs <;> simp_all

theorem create_texture_temp_ok (env : GpuEnv) (width height : ℤ) (r : RState) :
    (create_texture_temp env width height r).ok =
      (env.tempTexOk && env.tempRtvOk && env.tempSrvOk) := by
  unfold create_texture_temp
  split_ifs <;> simp_all

theorem create_texture_blur_ok (env : GpuEnv) (width height : ℤ) (r : RState) :
    (create_texture_blur env width height r).ok =
      (env.blurTexOk && env.blurRtvOk && env.blurSrvOk) := by
  unfold create_texture_blur
  split_ifs <;> simp_all

theorem create_texture_bg_eff (env : GpuEnv) (width height : ℤ) (r : RState)
    (e : Effect) (h1 : e ≠ .createTexture) (h2 : e ≠ .createView) :
    e ∉ (create_texture_bg env width height r).eff := by
  unfold create_texture_bg
  split_ifs <;> simp [h1, h2]

theorem create_texture_temp_eff (env : GpuEnv) (width height : ℤ) (r : RState)
    (e : Effect) (h1 : e ≠ .createTexture) (h2 : e ≠ .createView) :
    e ∉ (create_texture_temp env width height r).eff := by
  unfold create_texture_temp
  split_ifs <;> simp [h1, h2]

theorem create_texture_blur_eff (env : GpuEnv) (width height : ℤ) (r : RState)
    (e : Effect) (h1 : e ≠ .createTexture) (h2 : e ≠ .createView) :
    e ∉ (create_texture_blur env width height r).eff := by
  unfold create_texture_blur
  split_ifs <;> simp [h1, h2]

theorem ensure_render_targets_noop (env : GpuEnv) (width height : ℤ) (r : RState)
    (h : ensureNoop width height r = true) :
    ensure_render_targets env width height r = ⟨r, true, []⟩ := by
  simp only [ensureNoop, Bool.and_eq_true, beq_iff_eq] at h
  simp only [ensure_render_targets]
  rw [if_pos ⟨h.1.1, h.1.2, h.2⟩]

@[simp] theorem ensure_rt_width (env : GpuEnv) (width height : ℤ) (r : RState) :
    (ensure_render_targets env width height r).r.width_ = r.width_ := by
  simp only [ensure_render_targets]
  split_ifs <;>
    simp [create_texture_bg_r_eq, create_texture_temp_r_eq,
      create_texture_blur_r_eq, cleanup_render_targets]

@[simp] theorem ensure_rt_height (env : GpuEnv) (width height : ℤ) (r : RState) :
    (ensure_render_targets env width height r).r.height_ = r.height_ := by
  simp only [ensure_render_targets]
  split_ifs <;>
    simp [create_texture_bg_r_eq, create_texture_temp_r_eq,
      create_texture_blur_r_eq, cleanup_render_targets]

@[simp] theorem ensure_rt_initialized (env : GpuEnv) (width height : ℤ) (r : RState) :
    (ensure_render_targets env width height r).r.initialized_ = r.initialized_ := by
  simp only [ensure_render_targets]
  split_ifs <;>
    simp [create_texture_bg_r_eq, create_texture_temp_r_eq,
      create_texture_blur_r_eq, cleanup_render_targets]

@[simp] theorem ensure_rt_device (env : GpuEnv) (width height : ℤ) (r : RState) :
    (ensure_render_targets env width height r).r.device_ = r.device_ := by
  simp only [ensure_render_targets]
  split_ifs <;>
    simp [create_texture_bg_r_eq, create_texture_temp_r_eq,
      create_texture_blur_r_eq, cleanup_render_targets]

@[simp] theorem ensure_rt_captured (env : GpuEnv) (width height : ℤ) (r : RState) :
    (ensure_render_targets env width height r).r.background_captured_ =
      r.background_captured_ := by
  simp only [ensure_render_targets]
  split_ifs <;>
    simp [create_texture_bg_r_eq, create_texture_temp_r_eq,
      create_texture_blur_r_eq, cleanup_render_targets]

@[simp] theorem ensure_rt_processed (env : GpuEnv) (width height : ℤ) (r : RState) :
    (ensure_render_targets env width height r).r.blur_processed_ =
      r.blur_processed_ := by
  simp only [ensure_render_targets]
  split_ifs <;>
    simp [create_texture_bg_r_eq, create_texture_temp_r_eq,
      create_texture_blur_r_eq, cleanup_render_targets]

@[simp] theorem ensure_rt_pending (env : GpuEnv) (width height : ℤ) (r : RState) :
    (ensure_render_targets env width height r).r.blur_capture_pending_ =
      r.blur_capture_pending_ := by
  simp only [ensure_render_targets]
  split_ifs <;>
    simp [create_texture_bg_r_eq, create_texture_temp_r_eq,
      create_texture_blur_r_eq, cleanup_render_targets]

@[simp] theorem ensure_rt_enabled_last (env : GpuEnv) (width height : ℤ) (r : RState) :
    (ensure_render_targets env width height r).r.blur_enabled_last_frame_ =
      r.blur_enabled_last_frame_ := by
  simp only [ensure_render_targets]
  split_ifs <;>
    simp [create_texture_bg_r_eq, create_texture_temp_r_eq,
      create_texture_blur_r_eq, cleanup_render_targets]

@[simp] theorem ensure_rt_enable_time (env : GpuEnv) (width height : ℤ) (r : RState) :
    (ensure_render_targets env width height r).r.blur_enable_time_ =
      r.blur_enable_time_ := by
  simp only [ensure_render_targets]
  split_ifs <;>
    simp [create_texture_bg_r_eq, create_texture_temp_r_eq,
      create_texture_blur_r_eq, cleanup_render_targets]

/-- `ensure_render_targets` never touches the nine pipeline objects. -/
theorem ensure_rt_pipeline (env : GpuEnv) (width height : ℤ) (r : RState) :
    (ensure_render_targets env width height r).r.vertex_shader_ = r.vertex_shader_ ∧
    (ensure_render_targets env width height r).r.pixel_shader_horizontal_ = r.pixel_shader_horizontal_ ∧
    (ensure_render_targets env width height r).r.pixel_shader_vertical_ = r.pixel_shader_vertical_ ∧
    (ensure_render_targets env width height r).r.vertex_buffer_ = r.vertex_buffer_ ∧
    (ensure_render_targets env width height r).r.constant_buffer_ = r.constant_buffer_ ∧
    (ensure_render_targets env width height r).r.input_layout_ = r.input_layout_ ∧
    (ensure_render_targets env width height r).r.sampler_state_ = r.sampler_state_ ∧
    (ensure_render_targets env width height r).r.blend_state_ = r.blend_state_ ∧
    (ensure_render_targets env width height r).r.rasterizer_state_ = r.rasterizer_state_ := by
  simp only [ensure_render_targets]
  split_ifs <;>
    simp [create_texture_bg_r_eq, create_texture_temp_r_eq,
      create_texture_blur_r_eq, cleanup_render_targets]

theorem ensure_render_targets_eff (env : GpuEnv) (width height : ℤ) (r : RState)
    (e : Effect) (h1 : e ≠ .createTexture) (h2 : e ≠ .createView) :
    e ∉ (ensure_render_targets env width height r).eff := by
  have ea := create_texture_bg_eff env width height (cleanup_render_targets r) e h1 h2
  have eb := create_texture_temp_eff env width height
    (create_texture_bg env width height (cleanup_render_targets r)).r e h1 h2
  have ec := create_texture_blur_eff env width height
    (create_texture_temp env width height (create_texture_bg env width height (cleanup_render_targets r)).r).r e h1 h2
  simp only [ensure_render_targets]
  split_ifs <;> simp_all

theorem ensure_render_targets_ok (env : GpuEnv) (width height : ℤ) (r : RState) :
    (ensure_render_targets env width height r).ok =
      (ensureNoop width height r || allocOk env) := by
  by_cases h : ensureNoop width height r = true
  · rw [ensure_render_targets_noop env width height r h, h]; rfl
  · have h' : ¬ (r.background_capture_.isSome = true ∧ r.width_ = width ∧ r.height_ = height) := by
      simp only [ensureNoop, Bool.and_eq_true, beq_iff_eq] at h
      tauto
    rw [Bool.not_eq_true] at h
    rw [h, Bool.false_or]
    simp only [ensure_render_targets]
    rw [if_neg h']
    obtain ⟨v1, v2, v3, v4, v5, v6, v7, v8, v9, v10, v11, v12, b1, b2, b3, b4, b5, b6, b7, b8, m⟩ := env
    cases b1 <;> cases b2 <;> cases b3 <;> cases b4 <;> cases b5 <;> cases b6 <;>
      cases b7 <;> cases b8 <;>
      simp [create_texture_bg, create_texture_temp, create_texture_blur,
        allocOk, cleanup_render_targets]

theorem ensure_render_targets_full (env : GpuEnv) (width height : ℤ) (r : RState)
    (hno : ensureNoop width height r = false) (hall : allocOk env = true) :
    (ensure_render_targets env width height r).r =
      { r with background_capture_ := some (width, height), background_srv_ := true,
               temp_texture_ := some (width, height), temp_rtv_ := true, temp_srv_ := true,
               blur_texture_ := some (width, height), blur_rtv_ := true, blur_srv_ := true } := by
  have h' : ¬ (r.background_capture_.isSome = true ∧ r.width_ = width ∧ r.height_ = height) := by
    intro hx
    have hc : ensureNoop width height r = true := by
      simp only [ensureNoop, Bool.and_eq_true, beq_iff_eq]
      exact ⟨⟨hx.1, hx.2.1⟩, hx.2.2⟩
    rw [hc] at hno
    simp at hno
  simp only [allocOk, Bool.and_eq_true] at hall
  obtain ⟨⟨⟨⟨⟨⟨⟨e1, e2⟩, e3⟩, e4⟩, e5⟩, e6⟩, e7⟩, e8⟩ := hall
  simp only [ensure_render_targets]
  rw [if_neg h']
  simp [create_texture_bg, create_texture_temp, create_texture_blur,
    cleanup_render_targets, e1, e2, e3, e4, e5, e6, e7, e8]

theorem process_blur_not_captured (env : GpuEnv) (strength : ℚ) (r : RState)
    (ctx : Ctx) (h : r.background_captured_ = false) :
    process_blur env strength r ctx = ⟨r, ctx, false, []⟩ := by
  simp [process_blur, h]

theorem process_blur_eq (env : GpuEnv) (strength : ℚ) (r : RState) (ctx : Ctx)
    (h : r.background_captured_ = true) :
    process_blur env strength r ctx =
      ⟨{ r with blur_processed_ := true },
       { ctx with
           psShader := if r.pixel_shader_vertical_ then some PsTag.verticalPS else none,
           vsBound := r.vertex_shader_,
           inputLayoutBound := r.input_layout_,
           topologyTriStrip := true,
           vertexBufferBound := r.vertex_buffer_,
           psCb0Bound := r.constant_buffer_,
           psSampler0Bound := r.sampler_state_,
           rsStateBound := r.rasterizer_state_,
           blendStateBound := r.blend_state_,
           psSrv0 := none,
           cbContents :=
             if env.mapOk then some (((r.width_ : ℚ)), ((r.height_ : ℚ)), strength, 0)
             else ctx.cbContents },
       true, List.replicate (if env.mapOk then 24 else 23) .contextCall⟩ := by
  by_cases hm : env.mapOk = true <;> simp [process_blur, h, hm]

theorem process_blur_eff (env : GpuEnv) (strength : ℚ) (r : RState) (ctx : Ctx)
    (e : Effect) (h1 : e ≠ .contextCall) :
    e ∉ (process_blur env strength r ctx).eff := by
  simp only [process_blur]
  split_ifs <;> simp [List.mem_replicate, h1]

/-! ### Block-level lemmas for `renderMain` -/

@[simp] theorem preResize_width (p : BlurParams) (r : RState) :
    (preResize p r).width_ = truncRat p.window_size.1 := by
  unfold preResize
  split_ifs with h
  · rfl
  · push_neg at h
    exact h.1

@[simp] theorem preResize_height (p : BlurParams) (r : RState) :
    (preResize p r).height_ = truncRat p.window_size.2 := by
  unfold preResize
  split_ifs with h
  · rfl
  · push_neg at h
    exact h.2

@[simp] theorem preResize_initialized (p : BlurParams) (r : RState) :
    (preResize p r).initialized_ = r.initialized_ := by
  unfold preResize
  split_ifs <;> rfl

@[simp] theorem preResize_device (p : BlurParams) (r : RState) :
    (preResize p r).device_ = r.device_ := by
  unfold preResize
  split_ifs <;> rfl

@[simp] theorem preResize_enabled_last (p : BlurParams) (r : RState) :
    (preResize p r).blur_enabled_last_frame_ = r.blur_enabled_last_frame_ := by
  unfold preResize
  split_ifs <;> rfl

@[simp] theorem preResize_enable_time (p : BlurParams) (r : RState) :
    (preResize p r).blur_enable_time_ = r.blur_enable_time_ := by
  unfold preResize
  split_ifs <;> rfl

theorem edgeStep_edge (sb : Bool) (t : ℚ) (r1 : RState)
    (hsb : sb = true) (hel : r1.blur_enabled_last_frame_ = false) :
    edgeStep sb t r1 =
      { reset_state r1 with blur_capture_pending_ := true, blur_enable_time_ := t } := by
  simp [edgeStep, hsb, hel]

theorem edgeStep_off (sb : Bool) (t : ℚ) (r1 : RState)
    (hsb : sb = false) (hel : r1.blur_enabled_last_frame_ = true) :
    edgeStep sb t r1 = reset_state r1 := by
  simp [edgeStep, hsb, hel]

theorem edgeStep_id (sb : Bool) (t : ℚ) (r1 : RState)
    (h : sb = r1.blur_enabled_last_frame_) :
    edgeStep sb t r1 = r1 := by
  cases hsb : sb <;> rw [hsb] at h <;> simp [edgeStep, hsb, ← h]

theorem captureBlock_skip (p : BlurParams) (sb : Bool) (t : ℚ) (env : GpuEnv)
    (r2 : RState) (ctx : Ctx)
    (h : ¬ (sb = true ∧ r2.blur_capture_pending_ = true ∧ ¬ r2.blur_processed_ = true)) :
    captureBlock p sb t env r2 ctx = (r2, ctx, []) := by
  simp only [captureBlock]
  rw [if_neg h]

theorem captureBlock_wait (p : BlurParams) (sb : Bool) (t : ℚ) (env : GpuEnv)
    (r2 : RState) (ctx : Ctx)
    (h : sb = true ∧ r2.blur_capture_pending_ = true ∧ ¬ r2.blur_processed_ = true)
    (hd : ¬ p.delay_time ≤ t - r2.blur_enable_time_) :
    captureBlock p sb t env r2 ctx = (r2, ctx, []) := by
  simp only [captureBlock]
  rw [if_pos h, if_neg hd]

theorem captureBlock_noensure (p : BlurParams) (sb : Bool) (t : ℚ) (env : GpuEnv)
    (r2 : RState) (ctx : Ctx)
    (h : sb = true ∧ r2.blur_capture_pending_ = true ∧ ¬ r2.blur_processed_ = true)
    (hd : p.delay_time ≤ t - r2.blur_enable_time_)
    (he : (ensure_render_targets env (truncRat p.window_size.1) (truncRat p.window_size.2)
            { r2 with blur_capture_pending_ := false }).ok = false) :
    captureBlock p sb t env r2 ctx =
      ((ensure_render_targets env (truncRat p.window_size.1) (truncRat p.window_size.2)
          { r2 with blur_capture_pending_ := false }).r, ctx,
       (ensure_render_targets env (truncRat p.window_size.1) (truncRat p.window_size.2)
          { r2 with blur_capture_pending_ := false }).eff) := by
  simp only [captureBlock]
  rw [if_pos h, if_pos hd]
  simp [he]

theorem captureBlock_nocapture (p : BlurParams) (sb : Bool) (t : ℚ) (env : GpuEnv)
    (r2 : RState) (ctx : Ctx)
    (h : sb = true ∧ r2.blur_capture_pending_ = true ∧ ¬ r2.blur_processed_ = true)
    (hd : p.delay_time ≤ t - r2.blur_enable_time_)
    (he : (ensure_render_targets env (truncRat p.window_size.1) (truncRat p.window_size.2)
            { r2 with blur_capture_pending_ := false }).ok = true)
    (hrtv : ctx.rtv = none) :
    captureBlock p sb t env r2 ctx =
      ((ensure_render_targets env (truncRat p.window_size.1) (truncRat p.window_size.2)
          { r2 with blur_capture_pending_ := false }).r, ctx,
       (ensure_render_targets env (truncRat p.window_size.1) (truncRat p.window_size.2)
          { r2 with blur_capture_pending_ := false }).eff ++ [.contextCall]) := by
  simp only [captureBlock]
  rw [if_pos h, if_pos hd, capture_background_none _ _ _ _ hrtv]
  simp [he]

theorem captureBlock_success (p : BlurParams) (sb : Bool) (t : ℚ) (env : GpuEnv)
    (r2 : RState) (ctx : Ctx)
    (h : sb = true ∧ r2.blur_capture_pending_ = true ∧ ¬ r2.blur_processed_ = true)
    (hd : p.delay_time ≤ t - r2.blur_enable_time_)
    (he : (ensure_render_targets env (truncRat p.window_size.1) (truncRat p.window_size.2)
            { r2 with blur_capture_pending_ := false }).ok = true)
    (hrtv : ctx.rtv.isSome = true) :
    captureBlock p sb t env r2 ctx =
      ((process_blur env p.blur_strength
          { (ensure_render_targets env (truncRat p.window_size.1) (truncRat p.window_size.2)
              { r2 with blur_capture_pending_ := false }).r with
            background_captured_ := true } ctx).r,
       (process_blur env p.blur_strength
          { (ensure_render_targets env (truncRat p.window_size.1) (truncRat p.window_size.2)
              { r2 with blur_capture_pending_ := false }).r with
            background_captured_ := true } ctx).ctx,
       (ensure_render_targets env (truncRat p.window_size.1) (truncRat p.window_size.2)
          { r2 with blur_capture_pending_ := false }).eff ++
         [.contextCall, .contextCall, .contextCall] ++
         (process_blur env p.blur_strength
            { (ensure_render_targets env (truncRat p.window_size.1) (truncRat p.window_size.2)
                { r2 with blur_capture_pending_ := false }).r with
              background_captured_ := true } ctx).eff) := by
  simp only [captureBlock]
  rw [if_pos h, if_pos hd, capture_background_some _ _ _ _ hrtv]
  simp [he]

theorem edgeStep_act (sb : Bool) (t : ℚ) (r1 : RState) :
    actOf (edgeStep sb t r1) =
      (if sb = true ∧ ¬ r1.blur_enabled_last_frame_ = true then
        ⟨true, false, t, r1.blur_enabled_last_frame_⟩
      else if ¬ sb = true ∧ r1.blur_enabled_last_frame_ = true then
        ⟨false, false, r1.blur_enable_time_, r1.blur_enabled_last_frame_⟩
      else actOf r1) := by
  simp only [edgeStep]
  split_ifs <;> simp [actOf, reset_state]

theorem edgeStep_pres (sb : Bool) (t : ℚ) (r1 : RState) :
    (edgeStep sb t r1).initialized_ = r1.initialized_ ∧
    (edgeStep sb t r1).device_ = r1.device_ ∧
    (edgeStep sb t r1).width_ = r1.width_ ∧
    (edgeStep sb t r1).height_ = r1.height_ ∧
    (edgeStep sb t r1).background_capture_ = r1.background_capture_ := by
  simp only [edgeStep]
  split_ifs <;> exact ⟨rfl, rfl, rfl, rfl, rfl⟩

/-- The activation outcome of the debounced capture + blur attempt: once the
caller's intent holds, a capture is pending, nothing is processed and the
delay has elapsed, the pending flag is cleared and `blur_processed_` records
whether targets + capture succeeded; otherwise nothing changes. -/
theorem captureBlock_act (p : BlurParams) (sb : Bool) (t : ℚ) (env : GpuEnv)
    (r2 : RState) (ctx : Ctx)
    (hw : r2.width_ = truncRat p.window_size.1)
    (hh : r2.height_ = truncRat p.window_size.2) :
    actOf (captureBlock p sb t env r2 ctx).1 =
      (if sb = true ∧ r2.blur_capture_pending_ = true ∧ ¬ r2.blur_processed_ = true then
        if p.delay_time ≤ t - r2.blur_enable_time_ then
          ⟨false,
           (r2.background_capture_.isSome || allocOk env) && ctx.rtv.isSome,
           r2.blur_enable_time_, r2.blur_enabled_last_frame_⟩
        else actOf r2
      else actOf r2) ∧
    (captureBlock p sb t env r2 ctx).1.initialized_ = r2.initialized_ ∧
    (captureBlock p sb t env r2 ctx).1.device_ = r2.device_ ∧
    (captureBlock p sb t env r2 ctx).1.width_ = r2.width_ ∧
    (captureBlock p sb t env r2 ctx).1.height_ = r2.height_ ∧
    Effect.drawCommand ∉ (captureBlock p sb t env r2 ctx).2.2 := by
  have hnoop : ensureNoop (truncRat p.window_size.1) (truncRat p.window_size.2)
      { r2 with blur_capture_pending_ := false } = r2.background_capture_.isSome := by
    simp [ensureNoop, hw, hh]
  have hok := ensure_render_targets_ok env (truncRat p.window_size.1)
    (truncRat p.window_size.2) { r2 with blur_capture_pending_ := false }
  rw [hnoop] at hok
  by_cases hc : sb = true ∧ r2.blur_capture_pending_ = true ∧ ¬ r2.blur_processed_ = true
  · by_cases hdel : p.delay_time ≤ t - r2.blur_enable_time_
    · by_cases heok : (ensure_render_targets env (truncRat p.window_size.1)
          (truncRat p.window_size.2) { r2 with blur_capture_pending_ := false }).ok = true
      · rcases hrtv : ctx.rtv with _ | v
        · rw [captureBlock_nocapture p sb t env r2 ctx hc hdel heok hrtv]
          rw [heok] at hok
          refine ⟨?_, by simp, by simp, by simp, by simp, ?_⟩
          · rw [if_pos hc, if_pos hdel]
            have hpr : r2.blur_processed_ = false := by
              rw [← Bool.not_eq_true]; exact hc.2.2
            simp [actOf, hpr, ← hok, hrtv]
          · intro hmem
            exact absurd (by simpa using hmem)
              (by
                have h1 := ensure_render_targets_eff env (truncRat p.window_size.1)
                  (truncRat p.window_size.2) { r2 with blur_capture_pending_ := false }
                  Effect.drawCommand (by simp) (by simp)
                simp [h1])
        · rw [captureBlock_success p sb t env r2 ctx hc hdel heok (by rw [hrtv]; rfl)]
          rw [process_blur_eq env p.blur_strength _ ctx rfl]
          rw [heok] at hok
          refine ⟨?_, by simp, by simp, by simp, by simp, ?_⟩
          · rw [if_pos hc, if_pos hdel]
            simp [actOf, ← hok, hrtv]
          · intro hmem
            have h1 := ensure_render_targets_eff env (truncRat p.window_size.1)
              (truncRat p.window_size.2) { r2 with blur_capture_pending_ := false }
              Effect.drawCommand (by simp) (by simp)
            simp [h1, List.mem_replicate] at hmem
      · rw [captureBlock_noensure p sb t env r2 ctx hc hdel
          (by rwa [Bool.not_eq_true] at heok)]
        rw [Bool.not_eq_true] at heok
        rw [heok] at hok
        have hpr : r2.blur_processed_ = false := by
          rw [← Bool.not_eq_true]; exact hc.2.2
        refine ⟨?_, by simp, by simp, by simp, by simp, ?_⟩
        · rw [if_pos hc, if_pos hdel]
          simp [actOf, hpr, ← hok]
        · exact ensure_render_targets_eff env (truncRat p.window_size.1)
            (truncRat p.window_size.2) { r2 with blur_capture_pending_ := false }
            Effect.drawCommand (by simp) (by simp)
    · rw [captureBlock_wait p sb t env r2 ctx hc hdel]
      rw [if_pos hc, if_neg hdel]
      simp
  · rw [captureBlock_skip p sb t env r2 ctx hc]
    rw [if_neg hc]
    simp

/-- `actOf` commutes with setting `blur_enabled_last_frame_`. -/
theorem actOf_set_el (x : RState) (v : Bool) :
    actOf { x with blur_enabled_last_frame_ := v } = { actOf x with enabledLast := v } := rfl

/-- Full characterization of `renderMain` on a frame with a valid window size:
it reports success, ends at the truncated window dimensions, its activation
fields follow `actStep` (with the resize-reset state `preResize p r` as the
starting point and the targets + capture outcome as the attempt result), and
the composite draw command is emitted iff the call ends with the blur
processed, its SRV present and the intent still true. -/
theorem renderMain_char (p : BlurParams) (sb : Bool) (t : ℚ) (env : GpuEnv)
    (r : RState) (ctx : Ctx) (acc : List Effect)
    (hww : 0 < truncRat p.window_size.1) (hwh : 0 < truncRat p.window_size.2)
    (hacc : Effect.drawCommand ∉ acc) :
    (renderMain p sb t env r ctx acc).ok = true ∧
    (renderMain p sb t env r ctx acc).r.initialized_ = r.initialized_ ∧
    (renderMain p sb t env r ctx acc).r.device_ = r.device_ ∧
    (renderMain p sb t env r ctx acc).r.width_ = truncRat p.window_size.1 ∧
    (renderMain p sb t env r ctx acc).r.height_ = truncRat p.window_size.2 ∧
    actOf (renderMain p sb t env r ctx acc).r =
      actStep sb t p.delay_time
        (((preResize p r).background_capture_.isSome || allocOk env) && ctx.rtv.isSome)
        (actOf (preResize p r)) ∧
    (Effect.drawCommand ∈ (renderMain p sb t env r ctx acc).eff ↔
      (sb = true ∧ (renderMain p sb t env r ctx acc).r.blur_processed_ = true ∧
        (renderMain p sb t env r ctx acc).r.blur_srv_ = true)) ∧
    (sb = false → (renderMain p sb t env r ctx acc).eff = acc) := by
  have hsize : ¬ (truncRat p.window_size.1 ≤ 0 ∨ truncRat p.window_size.2 ≤ 0) := by
    omega
  have hep := edgeStep_pres sb t (preResize p r)
  have hw2 : (edgeStep sb t (preResize p r)).width_ = truncRat p.window_size.1 := by
    rw [hep.2.2.1, preResize_width]
  have hh2 : (edgeStep sb t (preResize p r)).height_ = truncRat p.window_size.2 := by
    rw [hep.2.2.2.1, preResize_height]
  obtain ⟨hact, hini, hdev, hwid, hhei, hdraw⟩ :=
    captureBlock_act p sb t env (edgeStep sb t (preResize p r)) ctx hw2 hh2
  rw [hep.2.2.2.2] at hact
  simp only [renderMain]
  rw [if_neg hsize]
  refine ⟨rfl, by simp [hini, hep.1], by simp [hdev, hep.2.1],
    by simp [hwid, hw2], by simp [hhei, hh2], ?_, ?_, ?_⟩
  · -- activation characterization
    rw [actOf_set_el, hact]
    by_cases hsb : sb = true
    · by_cases hel : r.blur_enabled_last_frame_ = true
      · rw [edgeStep_id sb t _ (by simp [hsb, hel])]
        by_cases hp : (preResize p r).blur_capture_pending_ = true
        · by_cases hpr : (preResize p r).blur_processed_ = true
          · simp [actStep, actOf, hsb, hel, hp, hpr]
          · have hpr' : (preResize p r).blur_processed_ = false := by
              rwa [Bool.not_eq_true] at hpr
            by_cases hdel : p.delay_time ≤ t - r.blur_enable_time_
            · simp [actStep, actOf, hsb, hel, hp, hpr', hdel]
            · simp [actStep, actOf, hsb, hel, hp, hpr', hdel]
        · have hp' : (preResize p r).blur_capture_pending_ = false := by
            rwa [Bool.not_eq_true] at hp
          simp [actStep, actOf, hsb, hel, hp']
      · have hel' : r.blur_enabled_last_frame_ = false := by
          rwa [Bool.not_eq_true] at hel
        rw [edgeStep_edge sb t _ hsb (by simp [hel'])]
        by_cases hdel : p.delay_time ≤ (0 : ℚ)
        · simp [actStep, actOf, reset_state, hsb, hel', hdel]
        · simp [actStep, actOf, reset_state, hsb, hel', hdel]
    · have hsb' : sb = false := by rwa [Bool.not_eq_true] at hsb
      by_cases hel : r.blur_enabled_last_frame_ = true
      · rw [edgeStep_off sb t _ hsb' (by simp [hel])]
        simp [actStep, actOf, reset_state, hsb', hel]
      · have hel' : r.blur_enabled_last_frame_ = false := by
          rwa [Bool.not_eq_true] at hel
        rw [edgeStep_id sb t _ (by simp [hsb', hel'])]
        simp [actStep, actOf, hsb', hel']
  · -- draw command characterization
    have haux : ∀ (l2 : List Effect) (c : Bool), Effect.drawCommand ∉ l2 →
        (Effect.drawCommand ∈ acc ++ l2 ++ (if c then [Effect.drawCommand] else []) ↔
          c = true) := by
      intro l2 c h2
      cases c <;> simp [hacc, h2]
    rw [haux _ _ hdraw]
    simp [Bool.and_eq_true, and_assoc]
  · -- no effects at all when the intent is off
    intro hsbf
    rw [captureBlock_skip p sb t env (edgeStep sb t (preResize p r)) ctx (by simp [hsbf])]
    simp [hsbf]

/-- The renderer state after a successful lazy initialization for device
`dev`: everything torn down, then all nine pipeline objects created. -/
def initSuccessState (dev : Nat) (r : RState) : RState :=
  { cleanup_all r with
      device_ := some dev, context_ := true,
      vertex_shader_ := true, pixel_shader_horizontal_ := true,
      pixel_shader_vertical_ := true, input_layout_ := true,
      vertex_buffer_ := true, constant_buffer_ := true,
      sampler_state_ := true, blend_state_ := true, rasterizer_state_ := true,
      initialized_ := true }

/-- The effect trace of a successful lazy initialization. -/
def initEffects : List Effect :=
  [.getContext, .shaderCompile, .shaderCompile, .shaderCompile,
   .createDeviceObject, .createDeviceObject, .createDeviceObject,
   .createDeviceObject, .createDeviceObject, .createDeviceObject,
   .createDeviceObject, .createDeviceObject, .createDeviceObject]

theorem render_validate_fail (p : BlurParams) (sb : Bool) (t : ℚ) (env : GpuEnv)
    (r : RState) (ctx : Ctx) (h : p.device = none ∨ p.draw_list = false) :
    render p sb t env r ctx = ⟨r, ctx, false, []⟩ := by
  simp only [render]
  rw [if_pos h]

theorem render_steady_eq (p : BlurParams) (sb : Bool) (t : ℚ) (env : GpuEnv)
    (r : RState) (ctx : Ctx)
    (hv : ¬ (p.device = none ∨ p.draw_list = false))
    (hinit : r.initialized_ = true) (hdevr : r.device_ = p.device) :
    render p sb t env r ctx = renderMain p sb t env r ctx [] := by
  simp only [render]
  rw [if_neg hv, if_neg (by simp [hinit, hdevr])]

theorem render_init_eq (p : BlurParams) (sb : Bool) (t : ℚ) (env : GpuEnv)
    (r : RState) (ctx : Ctx) (dev : Nat)
    (hdev : p.device = some dev) (hdl : p.draw_list = true)
    (hcond : ¬ r.initialized_ = true ∨ r.device_ ≠ p.device)
    (hienv : initEnvOk env = true) :
    render p sb t env r ctx =
      renderMain p sb t env (initSuccessState dev r) ctx initEffects := by
  simp only [initEnvOk, Bool.and_eq_true] at hienv
  obtain ⟨⟨⟨⟨⟨⟨⟨⟨⟨⟨⟨f1, f2⟩, f3⟩, f4⟩, f5⟩, f6⟩, f7⟩, f8⟩, f9⟩, f10⟩, f11⟩, f12⟩ := hienv
  simp only [render]
  rw [if_neg (by simp [hdev, hdl]), if_pos hcond]
  rw [initialize_shaders_ok_eq env _ f1 f2 f3 f4 f5 f6 f7]
  rw [initialize_render_states_ok_eq env _ f8 f9 f10 f11 f12]
  simp [initSuccessState, initEffects, hdev]

/-- One well-formed frame rendered from a steady state: success, steadiness
preserved, activation fields following `actStep`, and the draw-command
characterization. -/
theorem renderFrame_steady (dev : Nat) (w h : ℚ) (f : Frame) (r : RState)
    (hwf : wfFrame dev w h f = true) (hww : 0 < truncRat w) (hwh : 0 < truncRat h)
    (hst : steady dev w h r = true) :
    (renderFrame f r).ok = true ∧
    steady dev w h (renderFrame f r).r = true ∧
    actOf (renderFrame f r).r =
      actStep f.shouldBlur f.time f.params.delay_time (captureSucc f r) (actOf r) ∧
    (Effect.drawCommand ∈ (renderFrame f r).eff ↔
      (f.shouldBlur = true ∧ (renderFrame f r).r.blur_processed_ = true ∧
        (renderFrame f r).r.blur_srv_ = true)) ∧
    (f.shouldBlur = false → (renderFrame f r).eff = []) := by
  simp only [wfFrame, Bool.and_eq_true, beq_iff_eq] at hwf
  obtain ⟨⟨⟨hdev, hdl⟩, hws⟩, hienv⟩ := hwf
  simp only [steady, Bool.and_eq_true, beq_iff_eq] at hst
  obtain ⟨⟨⟨hini, hdevr⟩, hwr⟩, hhr⟩ := hst
  have hw1 : f.params.window_size.1 = w := by rw [hws]
  have hh1 : f.params.window_size.2 = h := by rw [hws]
  have hww' : 0 < truncRat f.params.window_size.1 := by rw [hw1]; exact hww
  have hwh' : 0 < truncRat f.params.window_size.2 := by rw [hh1]; exact hwh
  have hren : renderFrame f r = renderMain f.params f.shouldBlur f.time f.env r f.ctx [] := by
    simp only [renderFrame]
    exact render_steady_eq _ _ _ _ _ _ (by simp [hdev, hdl]) hini (by rw [hdevr, hdev])
  have hcond : ¬ (r.width_ ≠ truncRat f.params.window_size.1 ∨
      r.height_ ≠ truncRat f.params.window_size.2) := by
    push_neg
    exact ⟨by rw [hw1]; exact hwr, by rw [hh1]; exact hhr⟩
  have hpre : preResize f.params r = r := by
    unfold preResize
    rw [if_neg hcond]
  obtain ⟨c1, c2, c3, c4, c5, c6, c7, c8⟩ :=
    renderMain_char f.params f.shouldBlur f.time f.env r f.ctx [] hww' hwh' (by simp)
  rw [hpre] at c6
  rw [hren]
  refine ⟨c1, ?_, ?_, c7, c8⟩
  · simp only [steady, Bool.and_eq_true, beq_iff_eq]
    exact ⟨⟨⟨by rw [c2, hini], by rw [c3, hdevr]⟩, by rw [c4, hw1]⟩,
      by rw [c5, hh1]⟩
  · rw [c6]
    simp [captureSucc]

/-- The first well-formed frame rendered from the initial renderer state:
lazy initialization succeeds, the state becomes steady, and the activation
machine starts from the all-false view. -/
theorem renderFrame_first (dev : Nat) (w h : ℚ) (f : Frame)
    (hwf : wfFrame dev w h f = true) (hww : 0 < truncRat w) (hwh : 0 < truncRat h) :
    (renderFrame f initState).ok = true ∧
    steady dev w h (renderFrame f initState).r = true ∧
    actOf (renderFrame f initState).r =
      actStep f.shouldBlur f.time f.params.delay_time
        (allocOk f.env && f.ctx.rtv.isSome) ⟨false, false, 0, false⟩ ∧
    (Effect.drawCommand ∈ (renderFrame f initState).eff ↔
      (f.shouldBlur = true ∧ (renderFrame f initState).r.blur_processed_ = true ∧
        (renderFrame f initState).r.blur_srv_ = true)) ∧
    (f.shouldBlur = false → (renderFrame f initState).eff = initEffects) := by
  simp only [wfFrame, Bool.and_eq_true, beq_iff_eq] at hwf
  obtain ⟨⟨⟨hdev, hdl⟩, hws⟩, hienv⟩ := hwf
  have hw1 : f.params.window_size.1 = w := by rw [hws]
  have hh1 : f.params.window_size.2 = h := by rw [hws]
  have hww' : 0 < truncRat f.params.window_size.1 := by rw [hw1]; exact hww
  have hwh' : 0 < truncRat f.params.window_size.2 := by rw [hh1]; exact hwh
  have hren : renderFrame f initState =
      renderMain f.params f.shouldBlur f.time f.env
        (initSuccessState dev initState) f.ctx initEffects := by
    simp only [renderFrame]
    exact render_init_eq _ _ _ _ _ _ dev hdev hdl (Or.inl (by simp [initState])) hienv
  obtain ⟨c1, c2, c3, c4, c5, c6, c7, c8⟩ :=
    renderMain_char f.params f.shouldBlur f.time f.env
      (initSuccessState dev initState) f.ctx initEffects hww' hwh' (by decide)
  have hactpre : actOf (preResize f.params (initSuccessState dev initState)) =
      ⟨false, false, 0, false⟩ := by
    unfold preResize
    split_ifs <;>
      simp [actOf, reset_state, cleanup_render_targets, initSuccessState,
        cleanup_all, initState]
  have hbgpre : (preResize f.params (initSuccessState dev initState)).background_capture_ =
      none := by
    unfold preResize
    split_ifs <;>
      simp [reset_state, cleanup_render_targets, initSuccessState, cleanup_all, initState]
  rw [hactpre, hbgpre] at c6
  rw [hren]
  refine ⟨c1, ?_, ?_, c7, c8⟩
  · simp only [steady, Bool.and_eq_true, beq_iff_eq]
    refine ⟨⟨⟨by rw [c2]; simp [initSuccessState], by rw [c3]; simp [initSuccessState]⟩,
      by rw [c4, hw1]⟩, by rw [c5, hh1]⟩
  · rw [c6]
    simp

/-- A well-formed frame at a size differing from the stored dimensions,
rendered from an initialized state: full reset, activation restarting from a
cleared view that keeps only the old stamp and previous-intent flag. -/
theorem renderFrame_resize (dev : Nat) (w h : ℚ) (f : Frame) (r : RState)
    (hwf : wfFrame dev w h f = true) (hww : 0 < truncRat w) (hwh : 0 < truncRat h)
    (hini : r.initialized_ = true) (hdevr : r.device_ = some dev)
    (hne : r.width_ ≠ truncRat w ∨ r.height_ ≠ truncRat h) :
    (renderFrame f r).ok = true ∧
    steady dev w h (renderFrame f r).r = true ∧
    actOf (renderFrame f r).r =
      actStep f.shouldBlur f.time f.params.delay_time
        (allocOk f.env && f.ctx.rtv.isSome)
        ⟨false, false, r.blur_enable_time_, r.blur_enabled_last_frame_⟩ ∧
    (Effect.drawCommand ∈ (renderFrame f r).eff ↔
      (f.shouldBlur = true ∧ (renderFrame f r).r.blur_processed_ = true ∧
        (renderFrame f r).r.blur_srv_ = true)) := by
  simp only [wfFrame, Bool.and_eq_true, beq_iff_eq] at hwf
  obtain ⟨⟨⟨hdev, hdl⟩, hws⟩, hienv⟩ := hwf
  have hw1 : f.params.window_size.1 = w := by rw [hws]
  have hh1 : f.params.window_size.2 = h := by rw [hws]
  have hww' : 0 < truncRat f.params.window_size.1 := by rw [hw1]; exact hww
  have hwh' : 0 < truncRat f.params.window_size.2 := by rw [hh1]; exact hwh
  have hren : renderFrame f r = renderMain f.params f.shouldBlur f.time f.env r f.ctx [] := by
    simp only [renderFrame]
    exact render_steady_eq _ _ _ _ _ _ (by simp [hdev, hdl]) hini (by rw [hdevr, hdev])
  have hcond : r.width_ ≠ truncRat f.params.window_size.1 ∨
      r.height_ ≠ truncRat f.params.window_size.2 := by
    rcases hne with hx | hx
    · exact Or.inl (by rw [hw1]; exact hx)
    · exact Or.inr (by rw [hh1]; exact hx)
  have hpre : preResize f.params r =
      { reset_state (cleanup_render_targets r) with
          width_ := truncRat f.params.window_size.1,
          height_ := truncRat f.params.window_size.2 } := by
    unfold preResize
    rw [if_pos hcond]
  obtain ⟨c1, c2, c3, c4, c5, c6, c7, c8⟩ :=
    renderMain_char f.params f.shouldBlur f.time f.env r f.ctx [] hww' hwh' (by simp)
  rw [hpre] at c6
  simp only [reset_state, cleanup_render_targets] at c6
  rw [hren]
  refine ⟨c1, ?_, ?_, c7⟩
  · simp only [steady, Bool.and_eq_true, beq_iff_eq]
    exact ⟨⟨⟨by rw [c2, hini], by rw [c3, hdevr]⟩, by rw [c4, hw1]⟩,
      by rw [c5, hh1]⟩
  · rw [c6]
    simp [actOf]

/-! ### Concrete fixtures for witnesses and counterexamples -/

/-- A GPU oracle on which every call succeeds. -/
def envAllOk : GpuEnv :=
  ⟨true, true, true, true, true, true, true, true, true, true, true,
   true, true, true, true, true, true, true, true, true, true⟩

/-- A host viewport. -/
def vpHost : Viewport := ⟨0, 0, 800, 600, 0, 1⟩

/-- A context with a host render target bound. -/
def ctxHost : Ctx :=
  ⟨some (.host 0), some 0, vpHost, none, none, false, false, false, false,
   false, false, false, false, none⟩

/-- A context with no render target bound (capture fails). -/
def ctxNoRtv : Ctx := { ctxHost with rtv := none }

/-- A well-formed request at window size `sz` with delay `d`. -/
def mkParams (sz : ℚ × ℚ) (d : ℚ) : BlurParams :=
  { device := some 0, draw_list := true, window_pos := (10, 20),
    window_size := sz, delay_time := d }

/-- The oracle on which the intermediate-texture allocation fails. -/
def envTempFail : GpuEnv := { envAllOk with tempTexOk := false }

/-- The oracle on which creating the horizontal pixel shader fails. -/
def envPsHFail : GpuEnv := { envAllOk with createPsHOk := false }

/-! ### Claims -/

/-- Claim C8: each blur axis uses the 9 taps `i ∈ [-4, 4]` with weight
`w(i) = exp(-0.5·i²/(4²·0.5))`; the weight sum is strictly positive, and the
normalized output `(Σ s i·w i)/(Σ w i)` never exceeds an upper bound of the
sampled inputs — it is a convex combination of them.  The weights do not
depend on the blur strength (strength only scales the sampled UV offsets), so
this holds for every strength value. -/
theorem c8_kernel_convex :
    (Finset.Icc (-4 : ℤ) 4).card = 9 ∧
    0 < blurTotalWeight ∧
    ∀ (s : ℤ → ℝ) (M : ℝ), (∀ i ∈ Finset.Icc (-4 : ℤ) 4, s i ≤ M) →
      blurOutput s ≤ M := by
  have hpos : 0 < blurTotalWeight := by
    rw [blurTotalWeight]
    apply Finset.sum_pos
    · intro i _
      exact Real.exp_pos _
    · exact ⟨-4, by decide⟩
  refine ⟨by decide, hpos, ?_⟩
  intro s M hs
  rw [blurOutput, div_le_iff₀ hpos]
  calc ∑ i ∈ Finset.Icc (-4 : ℤ) 4, s i * blurWeight i
      ≤ ∑ i ∈ Finset.Icc (-4 : ℤ) 4, M * blurWeight i := by
        apply Finset.sum_le_sum
        intro i hi
        exact mul_le_mul_of_nonneg_right (hs i hi) (Real.exp_pos _).le
    _ = M * blurTotalWeight := by rw [blurTotalWeight, Finset.mul_sum]

/-- Witness for C8 at the all-zero sample function with bound 0. -/
theorem c8_kernel_convex_witness :
    (∀ i ∈ Finset.Icc (-4 : ℤ) 4, (fun _ : ℤ => (0 : ℝ)) i ≤ 0) ∧
    blurOutput (fun _ : ℤ => (0 : ℝ)) ≤ 0 :=
  ⟨fun _ _ => le_refl 0,
   c8_kernel_convex.2.2 (fun _ : ℤ => (0 : ℝ)) 0 (fun _ _ => le_refl 0)⟩

/-- Claim C9: for every invocation of the two-pass blur past the capture
guard, the render target, depth-stencil binding and viewport bound before
pass 1 are restored after pass 2, and the pixel-shader SRV slot is unbound,
so the ambient render state is unchanged and no stale texture binding
remains. -/
theorem c9_process_blur_restores (env : GpuEnv) (strength : ℚ) (r : RState)
    (ctx : Ctx) (h : r.background_captured_ = true) :
    (process_blur env strength r ctx).ctx.rtv = ctx.rtv ∧
    (process_blur env strength r ctx).ctx.dsv = ctx.dsv ∧
    (process_blur env strength r ctx).ctx.viewport = ctx.viewport ∧
    (process_blur env strength r ctx).ctx.psSrv0 = none ∧
    (process_blur env strength r ctx).ok = true := by
  rw [process_blur_eq env strength r ctx h]
  exact ⟨rfl, rfl, rfl, rfl, rfl⟩

/-- Witness for C9 at a concrete captured state and host context. -/
theorem c9_process_blur_restores_witness :
    ({ initState with background_captured_ := true } : RState).background_captured_ = true ∧
    ((process_blur envAllOk 1 { initState with background_captured_ := true } ctxHost).ctx.rtv = ctxHost.rtv ∧
     (process_blur envAllOk 1 { initState with background_captured_ := true } ctxHost).ctx.dsv = ctxHost.dsv ∧
     (process_blur envAllOk 1 { initState with background_captured_ := true } ctxHost).ctx.viewport = ctxHost.viewport ∧
     (process_blur envAllOk 1 { initState with background_captured_ := true } ctxHost).ctx.psSrv0 = none ∧
     (process_blur envAllOk 1 { initState with background_captured_ := true } ctxHost).ok = true) :=
  ⟨rfl, c9_process_blur_restores envAllOk 1 _ ctxHost rfl⟩

/-- Helper: a false `ensureNoop` refutes the no-op condition proposition. -/
theorem ensureNoop_eq_false (width height : ℤ) (r : RState)
    (h : ensureNoop width height r = false) :
    ¬ (r.background_capture_.isSome = true ∧ r.width_ = width ∧ r.height_ = height) := by
  intro hx
  have hc : ensureNoop width height r = true := by
    simp only [ensureNoop, Bool.and_eq_true, beq_iff_eq]
    exact ⟨⟨hx.1, hx.2.1⟩, hx.2.2⟩
  rw [hc] at h
  simp at h

/-- Claim C5, counterexample: a call with valid device and draw-list handles
but zero window size on an uninitialized renderer returns `false` but *does*
issue GPU calls: the shaders are compiled and pipeline objects created before
the size check runs. -/
theorem c5_counterexample :
    (render (mkParams (0, 0) (15/100)) false 0 envAllOk initState ctxHost).ok = false ∧
    Effect.shaderCompile ∈
      (render (mkParams (0, 0) (15/100)) false 0 envAllOk initState ctxHost).eff ∧
    Effect.createDeviceObject ∈
      (render (mkParams (0, 0) (15/100)) false 0 envAllOk initState ctxHost).eff := by
  decide

/-- Claim C5 as amended: a missing device or draw-list handle causes an
immediate `false` return with no GPU calls; a window size truncating to ≤ 0
causes a `false` return with no render-target allocation and no draw command,
and with no GPU calls at all when the renderer is already initialized for the
same device — but when lazy initialization runs (first call or device change),
shader compilation and pipeline-object creation happen before the size
check. -/
theorem c5_degenerate (p : BlurParams) (sb : Bool) (t : ℚ) (env : GpuEnv)
    (r : RState) (ctx : Ctx) :
    (p.device = none ∨ p.draw_list = false →
      render p sb t env r ctx = ⟨r, ctx, false, []⟩) ∧
    (¬ (p.device = none ∨ p.draw_list = false) →
      (truncRat p.window_size.1 ≤ 0 ∨ truncRat p.window_size.2 ≤ 0) →
      (render p sb t env r ctx).ok = false ∧
      Effect.createTexture ∉ (render p sb t env r ctx).eff ∧
      Effect.drawCommand ∉ (render p sb t env r ctx).eff ∧
      (r.initialized_ = true → r.device_ = p.device →
        (render p sb t env r ctx).eff = [])) := by
  constructor
  · exact render_validate_fail p sb t env r ctx
  · intro hv hsize
    by_cases hcond : ¬ r.initialized_ = true ∨ r.device_ ≠ p.device
    · -- lazy initialization runs
      have hinit : ∀ (r' : RState) (acc : List Effect),
          renderMain p sb t env r' ctx acc = ⟨r', ctx, false, acc⟩ := by
        intro r' acc
        simp only [renderMain]
        rw [if_pos hsize]
      simp only [render]
      rw [if_neg hv, if_pos hcond]
      have hse := initialize_shaders_eff env
        { cleanup_all r with device_ := p.device, context_ := true }
      have hre := initialize_render_states_eff env
        (initialize_shaders env
          { cleanup_all r with device_ := p.device, context_ := true }).r
      have hvac : r.initialized_ = true → r.device_ = p.device →
          (⟨r, ctx, false, []⟩ : CtxOut).eff = [] := fun _ _ => rfl
      split_ifs with h1 h2
      · rw [hinit]
        refine ⟨rfl, ?_, ?_, ?_⟩
        · simp [hse Effect.createTexture (by simp) (by simp),
            hre Effect.createTexture (by simp)]
        · simp [hse Effect.drawCommand (by simp) (by simp),
            hre Effect.drawCommand (by simp)]
        · intro hi hd
          exact absurd (by simp [hi, hd] : ¬ (¬ r.initialized_ = true ∨ r.device_ ≠ p.device))
            (not_not_intro hcond)
      · refine ⟨rfl, ?_, ?_, ?_⟩
        · simp [hse Effect.createTexture (by simp) (by simp),
            hre Effect.createTexture (by simp)]
        · simp [hse Effect.drawCommand (by simp) (by simp),
            hre Effect.drawCommand (by simp)]
        · intro hi hd
          exact absurd (by simp [hi, hd] : ¬ (¬ r.initialized_ = true ∨ r.device_ ≠ p.device))
            (not_not_intro hcond)
      · refine ⟨rfl, ?_, ?_, ?_⟩
        · simp [hse Effect.createTexture (by simp) (by simp)]
        · simp [hse Effect.drawCommand (by simp) (by simp)]
        · intro hi hd
          exact absurd (by simp [hi, hd] : ¬ (¬ r.initialized_ = true ∨ r.device_ ≠ p.device))
            (not_not_intro hcond)
    · -- already initialized for this device: no GPU calls at all
      push_neg at hcond
      have hren := render_steady_eq p sb t env r ctx hv
        (by rw [← Bool.not_eq_false]; intro hx; exact absurd hx (by simp [hcond.1]))
        hcond.2
      rw [hren]
      simp only [renderMain]
      rw [if_pos hsize]
      exact ⟨rfl, by simp, by simp, fun _ _ => rfl⟩

/-- Witness for C5 at a missing draw list, and at a degenerate size on an
initialized renderer. -/
theorem c5_degenerate_witness :
    ((mkParams (100, 50) (15/100)).device = none ∨
      ({ mkParams (100, 50) (15/100) with draw_list := false } : BlurParams).draw_list = false) ∧
    render { mkParams (100, 50) (15/100) with draw_list := false } false 0 envAllOk
        initState ctxHost = ⟨initState, ctxHost, false, []⟩ :=
  ⟨Or.inr rfl,
   (c5_degenerate { mkParams (100, 50) (15/100) with draw_list := false } false 0
     envAllOk initState ctxHost).1 (Or.inr rfl)⟩

/-- Claim C6, counterexample: when the capture texture is created but the
intermediate texture allocation fails, `ensure_render_targets` returns
failure yet leaves the partially created capture texture alive — afterwards
neither the full set exists nor no texture of the set. -/
theorem c6_counterexample :
    (ensure_render_targets envTempFail 1 1 initState).ok = false ∧
    (ensure_render_targets envTempFail 1 1 initState).r.background_capture_ = some (1, 1) ∧
    (ensure_render_targets envTempFail 1 1 initState).r.background_srv_ = true ∧
    (ensure_render_targets envTempFail 1 1 initState).r.temp_texture_ = none ∧
    fullTexSet (ensure_render_targets envTempFail 1 1 initState).r 1 1 = false ∧
    noTexSet (ensure_render_targets envTempFail 1 1 initState).r = false := by
  decide

/-- Claim C6 as amended: `ensure_render_targets` is a no-op returning success
when the capture texture exists and the stored dimensions match the request;
otherwise it releases the old set and attempts all allocations in order,
reporting failure if any fails and producing the full set at the requested
size exactly when all eight creations succeed — but on failure the
already-created members of the set are left in place (released only by a
later call), so the all-or-nothing postcondition does not hold. -/
theorem c6_ensure_targets (env : GpuEnv) (width height : ℤ) (r : RState) :
    (ensureNoop width height r = true →
      ensure_render_targets env width height r = ⟨r, true, []⟩) ∧
    (ensureNoop width height r = false →
      ((ensure_render_targets env width height r).ok = true ↔ allocOk env = true)) ∧
    (ensureNoop width height r = false → allocOk env = true →
      fullTexSet (ensure_render_targets env width height r).r width height = true) ∧
    (ensureNoop width height r = false → env.bgTexOk = true → env.bgSrvOk = true →
      env.tempTexOk = false →
      (ensure_render_targets env width height r).ok = false ∧
      (ensure_render_targets env width height r).r.background_capture_ =
        some (width, height) ∧
      (ensure_render_targets env width height r).r.temp_texture_ = none) := by
  refine ⟨ensure_render_targets_noop env width height r, ?_, ?_, ?_⟩
  · intro h
    rw [ensure_render_targets_ok, h, Bool.false_or]
  · intro h hall
    rw [ensure_render_targets_full env width height r h hall]
    simp [fullTexSet]
  · intro h hb hs ht
    have h' := ensureNoop_eq_false width height r h
    have heq : ensure_render_targets env width height r =
        ⟨{ cleanup_render_targets r with
            background_capture_ := some (width, height), background_srv_ := true },
         false,
         [.createTexture, .createView, .createTexture]⟩ := by
      simp only [ensure_render_targets]
      rw [if_neg h']
      simp [create_texture_bg, create_texture_temp, hb, hs, ht]
    rw [heq]
    exact ⟨rfl, rfl, rfl⟩

/-- Witness for C6 on a fresh state with an all-success oracle. -/
theorem c6_ensure_targets_witness :
    ensureNoop 1 1 initState = false ∧ allocOk envAllOk = true ∧
    fullTexSet (ensure_render_targets envAllOk 1 1 initState).r 1 1 = true :=
  ⟨by decide, by decide,
   (c6_ensure_targets envAllOk 1 1 initState).2.2.1 (by decide) (by decide)⟩

/-- Claim C7, counterexample: when creating the horizontal pixel shader
fails after the vertex shader was created, `initialize_shaders` reports
failure but does not release the partially created vertex shader. -/
theorem c7_counterexample :
    (initialize_shaders envPsHFail initState).ok = false ∧
    (initialize_shaders envPsHFail initState).r.vertex_shader_ = true := by
  decide

/-- Two states agree on all nine pipeline objects and the initialized flag. -/
def samePipeline (a b : RState) : Prop :=
  a.vertex_shader_ = b.vertex_shader_ ∧
  a.pixel_shader_horizontal_ = b.pixel_shader_horizontal_ ∧
  a.pixel_shader_vertical_ = b.pixel_shader_vertical_ ∧
  a.vertex_buffer_ = b.vertex_buffer_ ∧
  a.constant_buffer_ = b.constant_buffer_ ∧
  a.input_layout_ = b.input_layout_ ∧
  a.sampler_state_ = b.sampler_state_ ∧
  a.blend_state_ = b.blend_state_ ∧
  a.rasterizer_state_ = b.rasterizer_state_ ∧
  a.initialized_ = b.initialized_

theorem samePipeline_refl (a : RState) : samePipeline a a :=
  ⟨rfl, rfl, rfl, rfl, rfl, rfl, rfl, rfl, rfl, rfl⟩

theorem samePipeline_trans {a b c : RState}
    (h1 : samePipeline a b) (h2 : samePipeline b c) : samePipeline a c := by
  obtain ⟨x1, x2, x3, x4, x5, x6, x7, x8, x9, x10⟩ := h1
  obtain ⟨y1, y2, y3, y4, y5, y6, y7, y8, y9, y10⟩ := h2
  exact ⟨x1.trans y1, x2.trans y2, x3.trans y3, x4.trans y4, x5.trans y5,
    x6.trans y6, x7.trans y7, x8.trans y8, x9.trans y9, x10.trans y10⟩

theorem samePipeline_pc {a b : RState} (h : samePipeline a b) :
    pipelineComplete a = pipelineComplete b := by
  obtain ⟨x1, x2, x3, x4, x5, x6, x7, x8, x9, _⟩ := h
  simp only [pipelineComplete, x1, x2, x3, x4, x5, x6, x7, x8, x9]

theorem ensure_samePipeline (env : GpuEnv) (width height : ℤ) (r : RState) :
    samePipeline (ensure_render_targets env width height r).r r := by
  obtain ⟨y1, y2, y3, y4, y5, y6, y7, y8, y9⟩ := ensure_rt_pipeline env width height r
  exact ⟨y1, y2, y3, y4, y5, y6, y7, y8, y9, ensure_rt_initialized env width height r⟩

theorem capture_samePipeline (pos size : ℚ × ℚ) (r : RState) (ctx : Ctx) :
    samePipeline (capture_background pos size r ctx).r r := by
  rcases h : ctx.rtv with _ | v <;>
    simp [capture_background, h, samePipeline]

theorem process_samePipeline (env : GpuEnv) (strength : ℚ) (r : RState) (ctx : Ctx) :
    samePipeline (process_blur env strength r ctx).r r := by
  simp only [process_blur]
  split_ifs <;> exact ⟨rfl, rfl, rfl, rfl, rfl, rfl, rfl, rfl, rfl, rfl⟩

theorem edgeStep_samePipeline (sb : Bool) (t : ℚ) (r1 : RState) :
    samePipeline (edgeStep sb t r1) r1 := by
  simp only [edgeStep, reset_state]
  split_ifs <;> exact ⟨rfl, rfl, rfl, rfl, rfl, rfl, rfl, rfl, rfl, rfl⟩

theorem preResize_samePipeline (p : BlurParams) (r : RState) :
    samePipeline (preResize p r) r := by
  simp only [preResize, reset_state, cleanup_render_targets]
  split_ifs <;> exact ⟨rfl, rfl, rfl, rfl, rfl, rfl, rfl, rfl, rfl, rfl⟩

theorem captureBlock_samePipeline (p : BlurParams) (sb : Bool) (t : ℚ) (env : GpuEnv)
    (r2 : RState) (ctx : Ctx) :
    samePipeline (captureBlock p sb t env r2 ctx).1 r2 := by
  simp only [captureBlock]
  split_ifs with h1 h2 h3 h4
  · exact samePipeline_trans
      (samePipeline_trans
        (process_samePipeline env p.blur_strength _ ctx)
        (capture_samePipeline p.window_pos p.window_size _ ctx))
      (ensure_samePipeline env _ _ _)
  · exact samePipeline_trans
      (capture_samePipeline p.window_pos p.window_size _ ctx)
      (ensure_samePipeline env _ _ _)
  · exact ensure_samePipeline env _ _ _
  · exact samePipeline_refl r2
  · exact samePipeline_refl r2

theorem renderMain_samePipeline (p : BlurParams) (sb : Bool) (t : ℚ) (env : GpuEnv)
    (r : RState) (ctx : Ctx) (acc : List Effect) :
    samePipeline (renderMain p sb t env r ctx acc).r r := by
  simp only [renderMain]
  split_ifs with h1
  · exact samePipeline_refl r
  all_goals
    refine samePipeline_trans ?_
      (samePipeline_trans (captureBlock_samePipeline p sb t env _ ctx)
        (samePipeline_trans (edgeStep_samePipeline sb t _) (preResize_samePipeline p r)))
    exact ⟨rfl, rfl, rfl, rfl, rfl, rfl, rfl, rfl, rfl, rfl⟩

theorem initialize_shaders_ok_fields (env : GpuEnv) (r : RState)
    (h : (initialize_shaders env r).ok = true) :
    (initialize_shaders env r).r.vertex_shader_ = true ∧
    (initialize_shaders env r).r.pixel_shader_horizontal_ = true ∧
    (initialize_shaders env r).r.pixel_shader_vertical_ = true ∧
    (initialize_shaders env r).r.input_layout_ = true := by
  unfold initialize_shaders at *
  split_ifs at h ⊢ <;> simp_all

theorem initialize_render_states_ok_fields (env : GpuEnv) (r : RState)
    (h : (initialize_render_states env r).ok = true) :
    (initialize_render_states env r).r.vertex_buffer_ = true ∧
    (initialize_render_states env r).r.constant_buffer_ = true ∧
    (initialize_render_states env r).r.sampler_state_ = true ∧
    (initialize_render_states env r).r.blend_state_ = true ∧
    (initialize_render_states env r).r.rasterizer_state_ = true := by
  unfold initialize_render_states at *
  split_ifs at h ⊢ <;> simp_all

/-- Claim C7 as amended: on any shader-compile or object-creation failure,
initialization reports failure and `render` returns `false` without marking
the renderer initialized — but the partially created pipeline objects are
released only by `cleanup_all` on the next `render` call, not at failure
time.  `render` still never proceeds past initialization with a partial
pipeline: whenever `initialized_` is set after a call, every pipeline object
is valid, and a `true` return implies the renderer is initialized. -/
theorem c7_pipeline_invariant (p : BlurParams) (sb : Bool) (t : ℚ) (env : GpuEnv)
    (r : RState) (ctx : Ctx)
    (hinv : r.initialized_ = true → pipelineComplete r = true) :
    ((render p sb t env r ctx).r.initialized_ = true →
      pipelineComplete (render p sb t env r ctx).r = true) ∧
    ((render p sb t env r ctx).ok = true →
      (render p sb t env r ctx).r.initialized_ = true) := by
  by_cases h1 : (p.device = none ∨ p.draw_list = false)
  · rw [render_validate_fail p sb t env r ctx h1]
    exact ⟨hinv, by simp⟩
  · by_cases h2 : (¬ r.initialized_ = true ∨ r.device_ ≠ p.device)
    · simp only [render]
      rw [if_neg h1, if_pos h2]
      by_cases h3 : (initialize_shaders env
          { cleanup_all r with device_ := p.device, context_ := true }).ok = true
      · by_cases h4 : (initialize_render_states env
            (initialize_shaders env
              { cleanup_all r with device_ := p.device, context_ := true }).r).ok = true
        · -- both init steps succeed: full pipeline, then renderMain preserves it
          obtain ⟨s1, s2, s3, s4⟩ := initialize_shaders_ok_fields env _ h3
          obtain ⟨t1, t2, t3, t4, t5⟩ := initialize_render_states_ok_fields env _ h4
          obtain ⟨c1, c2, c3, c4, c5, hshape2⟩ := initialize_render_states_shape env
            (initialize_shaders env
              { cleanup_all r with device_ := p.device, context_ := true }).r
          rw [if_neg (by rw [h3]; simp), if_neg (by rw [h4]; simp)]
          constructor
          · intro _
            refine Eq.trans
              (samePipeline_pc (renderMain_samePipeline p sb t env _ ctx _)) ?_
            simp [hshape2] at t1 t2 t3 t4 t5
            simp [pipelineComplete, hshape2, s1, s2, s3, s4, t1, t2, t3, t4, t5]
          · intro _
            refine Eq.trans
              ((renderMain_samePipeline p sb t env _ ctx _).2.2.2.2.2.2.2.2.2) ?_
            rfl
        · -- render-state init fails
          rw [if_neg (by rw [h3]; simp), if_pos h4]
          obtain ⟨b1, b2, b3, b4, hshape1⟩ := initialize_shaders_shape env
            { cleanup_all r with device_ := p.device, context_ := true }
          obtain ⟨c1, c2, c3, c4, c5, hshape2⟩ := initialize_render_states_shape env
            (initialize_shaders env
              { cleanup_all r with device_ := p.device, context_ := true }).r
          constructor
          · intro hx
            rw [hshape2, hshape1] at hx
            simp [cleanup_all, cleanup_render_targets] at hx
          · intro hx
            simp at hx
      · -- shader init fails: state is the partial shader state, not initialized
        rw [if_pos h3]
        obtain ⟨b1, b2, b3, b4, hshape⟩ := initialize_shaders_shape env
          { cleanup_all r with device_ := p.device, context_ := true }
        constructor
        · intro hx
          rw [hshape] at hx
          simp [cleanup_all, cleanup_render_targets] at hx
        · intro hx
          simp at hx
    · push_neg at h2
      have hren := render_steady_eq p sb t env r ctx h1 h2.1 h2.2
      rw [hren]
      have hsp := renderMain_samePipeline p sb t env r ctx []
      constructor
      · intro hx
        rw [hsp.2.2.2.2.2.2.2.2.2] at hx
        rw [samePipeline_pc hsp]
        exact hinv hx
      · intro _
        rw [hsp.2.2.2.2.2.2.2.2.2]
        exact h2.1

/-- Witness for C7 on a fresh renderer with a healthy oracle. -/
theorem c7_pipeline_invariant_witness :
    (initState.initialized_ = true → pipelineComplete initState = true) ∧
    (((render (mkParams (100, 50) (15/100)) false 0 envAllOk initState ctxHost).r.initialized_ = true →
        pipelineComplete
          (render (mkParams (100, 50) (15/100)) false 0 envAllOk initState ctxHost).r = true) ∧
     ((render (mkParams (100, 50) (15/100)) false 0 envAllOk initState ctxHost).ok = true →
        (render (mkParams (100, 50) (15/100)) false 0 envAllOk initState ctxHost).r.initialized_ = true)) :=
  ⟨by decide,
   c7_pipeline_invariant (mkParams (100, 50) (15/100)) false 0 envAllOk initState
     ctxHost (by decide)⟩

theorem capture_background_eff (pos size : ℚ × ℚ) (r : RState) (ctx : Ctx)
    (e : Effect) (h1 : e ≠ .contextCall) :
    e ∉ (capture_background pos size r ctx).eff := by
  rcases h : ctx.rtv with _ | v <;> simp [capture_background, h, h1]

/-- The capture + blur attempt never emits the composite draw command. -/
theorem captureBlock_no_draw (p : BlurParams) (sb : Bool) (t : ℚ) (env : GpuEnv)
    (r2 : RState) (ctx : Ctx) :
    Effect.drawCommand ∉ (captureBlock p sb t env r2 ctx).2.2 := by
  have he := ensure_render_targets_eff env (truncRat p.window_size.1)
    (truncRat p.window_size.2) { r2 with blur_capture_pending_ := false }
    Effect.drawCommand (by simp) (by simp)
  have hc := capture_background_eff
  simp only [captureBlock]
  split_ifs with h1 h2 h3 h4
  · have hp := process_blur_eff env p.blur_strength
      (capture_background p.window_pos p.window_size
        (ensure_render_targets env (truncRat p.window_size.1) (truncRat p.window_size.2)
          { r2 with blur_capture_pending_ := false }).r ctx).r ctx
      Effect.drawCommand (by simp)
    have hcb := capture_background_eff p.window_pos p.window_size
      (ensure_render_targets env (truncRat p.window_size.1) (truncRat p.window_size.2)
        { r2 with blur_capture_pending_ := false }).r ctx
      Effect.drawCommand (by simp)
    simp [he, hp, hcb]
  · have hcb := capture_background_eff p.window_pos p.window_size
      (ensure_render_targets env (truncRat p.window_size.1) (truncRat p.window_size.2)
        { r2 with blur_capture_pending_ := false }).r ctx
      Effect.drawCommand (by simp)
    simp [he, hcb]
  · simpa using he
  · simp
  · simp

/-- The blur-processed flag only ever becomes set together with a successful
capture: one `captureBlock` call preserves the implication
`blur_processed_ → background_captured_`. -/
theorem captureBlock_inv (p : BlurParams) (sb : Bool) (t : ℚ) (env : GpuEnv)
    (r2 : RState) (ctx : Ctx)
    (hinv : r2.blur_processed_ = true → r2.background_captured_ = true) :
    (captureBlock p sb t env r2 ctx).1.blur_processed_ = true →
      (captureBlock p sb t env r2 ctx).1.background_captured_ = true := by
  simp only [captureBlock]
  split_ifs with h1 h2 h3 h4
  · -- ensure ok, capture ok: both flags end true
    rw [capture_background_ok] at h4
    rcases Option.isSome_iff_exists.mp h4 with ⟨v, hv⟩
    rw [capture_background_some _ _ _ _ (by rw [hv]; rfl)]
    rw [process_blur_eq _ _ _ _ rfl]
    intro _
    rfl
  · -- capture failed: processed stays false
    rw [capture_background_ok] at h4
    have h4n : ctx.rtv = none := Option.not_isSome_iff_eq_none.mp h4
    rw [capture_background_none _ _ _ _ h4n]
    intro hx
    rw [ensure_rt_processed] at hx
    exact absurd hx h1.2.2
  · -- targets failed: processed stays false
    intro hx
    rw [ensure_rt_processed] at hx
    exact absurd hx h1.2.2
  · exact hinv
  · exact hinv

theorem edgeStep_inv (sb : Bool) (t : ℚ) (r1 : RState)
    (hinv : r1.blur_processed_ = true → r1.background_captured_ = true) :
    (edgeStep sb t r1).blur_processed_ = true →
      (edgeStep sb t r1).background_captured_ = true := by
  simp only [edgeStep, reset_state]
  split_ifs <;> first | (intro hx; simp at hx) | exact hinv

theorem preResize_inv (p : BlurParams) (r : RState)
    (hinv : r.blur_processed_ = true → r.background_captured_ = true) :
    (preResize p r).blur_processed_ = true →
      (preResize p r).background_captured_ = true := by
  simp only [preResize, reset_state, cleanup_render_targets]
  split_ifs <;> first | (intro hx; simp at hx) | exact hinv

theorem renderMain_inv (p : BlurParams) (sb : Bool) (t : ℚ) (env : GpuEnv)
    (r : RState) (ctx : Ctx) (acc : List Effect)
    (hacc : Effect.drawCommand ∉ acc)
    (hinv : r.blur_processed_ = true → r.background_captured_ = true) :
    ((renderMain p sb t env r ctx acc).r.blur_processed_ = true →
      (renderMain p sb t env r ctx acc).r.background_captured_ = true) ∧
    (Effect.drawCommand ∈ (renderMain p sb t env r ctx acc).eff →
      (renderMain p sb t env r ctx acc).r.blur_processed_ = true) := by
  have hnd := captureBlock_no_draw p sb t env (edgeStep sb t (preResize p r)) ctx
  have hstep := captureBlock_inv p sb t env (edgeStep sb t (preResize p r)) ctx
    (edgeStep_inv sb t _ (preResize_inv p r hinv))
  simp only [renderMain]
  split_ifs with h1 h2
  · exact ⟨hinv, fun hmem => absurd hmem hacc⟩
  · exact ⟨hstep, fun _ => by
      simp only [Bool.and_eq_true] at h2
      exact h2.1.2⟩
  · constructor
    · exact hstep
    · intro hmem
      simp [hacc, hnd] at hmem

/-- Claim C10: `blur_processed_` implies `background_captured_` is an
invariant of `render`: `process_blur` without a prior successful capture
returns `false` with no GPU commands and no state change, the flag is only
set after the capture guard passes, every reset path clears both flags
together, and the composite draw command is only emitted when the blur is
processed — hence only over a captured background. -/
theorem c10_processed_implies_captured (p : BlurParams) (sb : Bool) (t : ℚ)
    (env : GpuEnv) (r : RState) (ctx : Ctx)
    (hinv : r.blur_processed_ = true → r.background_captured_ = true) :
    ((render p sb t env r ctx).r.blur_processed_ = true →
      (render p sb t env r ctx).r.background_captured_ = true) ∧
    (Effect.drawCommand ∈ (render p sb t env r ctx).eff →
      (render p sb t env r ctx).r.blur_processed_ = true ∧
      (render p sb t env r ctx).r.background_captured_ = true) ∧
    (∀ (env' : GpuEnv) (strength : ℚ) (r' : RState) (ctx' : Ctx),
      r'.background_captured_ = false →
      process_blur env' strength r' ctx' = ⟨r', ctx', false, []⟩) := by
  have hmain : ((render p sb t env r ctx).r.blur_processed_ = true →
      (render p sb t env r ctx).r.background_captured_ = true) ∧
    (Effect.drawCommand ∈ (render p sb t env r ctx).eff →
      (render p sb t env r ctx).r.blur_processed_ = true) := by
    by_cases h1 : (p.device = none ∨ p.draw_list = false)
    · rw [render_validate_fail p sb t env r ctx h1]
      exact ⟨hinv, by simp⟩
    · by_cases h2 : (¬ r.initialized_ = true ∨ r.device_ ≠ p.device)
      · simp only [render]
        rw [if_neg h1, if_pos h2]
        have hse := initialize_shaders_eff env
          { cleanup_all r with device_ := p.device, context_ := true }
          Effect.drawCommand (by simp) (by simp)
        have hre := initialize_render_states_eff env
          (initialize_shaders env
            { cleanup_all r with device_ := p.device, context_ := true }).r
          Effect.drawCommand (by simp)
        obtain ⟨b1, b2, b3, b4, hshape1⟩ := initialize_shaders_shape env
          { cleanup_all r with device_ := p.device, context_ := true }
        obtain ⟨c1, c2, c3, c4, c5, hshape2⟩ := initialize_render_states_shape env
          (initialize_shaders env
            { cleanup_all r with device_ := p.device, context_ := true }).r
        by_cases h3 : (initialize_shaders env
            { cleanup_all r with device_ := p.device, context_ := true }).ok = true
        · by_cases h4 : (initialize_render_states env
              (initialize_shaders env
                { cleanup_all r with device_ := p.device, context_ := true }).r).ok = true
          · rw [if_neg (by rw [h3]; simp), if_neg (by rw [h4]; simp)]
            have hacc2 : Effect.drawCommand ∉
                (Effect.getContext ::
                  ((initialize_shaders env
                    { cleanup_all r with device_ := p.device, context_ := true }).eff ++
                   (initialize_render_states env
                     (initialize_shaders env
                       { cleanup_all r with device_ := p.device, context_ := true }).r).eff)) := by
              simp [hse, hre]
            have hinv2 : ({ (initialize_render_states env
                (initialize_shaders env
                  { cleanup_all r with device_ := p.device, context_ := true }).r).r with
                  initialized_ := true } : RState).blur_processed_ = true →
                ({ (initialize_render_states env
                  (initialize_shaders env
                    { cleanup_all r with device_ := p.device, context_ := true }).r).r with
                  initialized_ := true } : RState).background_captured_ = true := by
              rw [hshape2, hshape1]
              simpa [cleanup_all, cleanup_render_targets] using hinv
            exact renderMain_inv p sb t env _ ctx _ hacc2 hinv2
          · rw [if_neg (by rw [h3]; simp), if_pos h4]
            constructor
            · rw [hshape2, hshape1]
              simpa [cleanup_all, cleanup_render_targets] using hinv
            · intro hmem
              simp [hse, hre] at hmem
        · rw [if_pos h3]
          constructor
          · rw [hshape1]
            simpa [cleanup_all, cleanup_render_targets] using hinv
          · intro hmem
            simp [hse] at hmem
      · push_neg at h2
        rw [render_steady_eq p sb t env r ctx h1 h2.1 h2.2]
        exact renderMain_inv p sb t env r ctx [] (by simp) hinv
  exact ⟨hmain.1, fun hmem => ⟨hmain.2 hmem, hmain.1 (hmain.2 hmem)⟩,
    fun env2 strength r2 ctx2 h => process_blur_not_captured env2 strength r2 ctx2 h⟩

/-- Witness for C10 on a fresh renderer with an activation frame. -/
theorem c10_processed_implies_captured_witness :
    (initState.blur_processed_ = true → initState.background_captured_ = true) ∧
    (((render (mkParams (100, 50) 0) true 0 envAllOk initState ctxHost).r.blur_processed_ = true →
       (render (mkParams (100, 50) 0) true 0 envAllOk initState ctxHost).r.background_captured_ = true) ∧
     (Effect.drawCommand ∈ (render (mkParams (100, 50) 0) true 0 envAllOk initState ctxHost).eff →
       (render (mkParams (100, 50) 0) true 0 envAllOk initState ctxHost).r.blur_processed_ = true ∧
       (render (mkParams (100, 50) 0) true 0 envAllOk initState ctxHost).r.background_captured_ = true) ∧
     (∀ (env' : GpuEnv) (strength : ℚ) (r' : RState) (ctx' : Ctx),
       r'.background_captured_ = false →
       process_blur env' strength r' ctx' = ⟨r', ctx', false, []⟩)) :=
  ⟨by decide,
   c10_processed_implies_captured (mkParams (100, 50) 0) true 0 envAllOk initState
     ctxHost (by decide)⟩

/-- Frame A of the C1 trace: intent on, zero delay, no render target bound on
the host context, so the capture attempt at frame 0 fails. -/
def c1FrameA : Frame := ⟨mkParams (100, 50) 0, true, 0, envAllOk, ctxNoRtv⟩

/-- Frame B of the C1 trace: intent still on, render target bound again (the
failure condition has cleared). -/
def c1FrameB : Frame := ⟨mkParams (100, 50) 0, true, 1, envAllOk, ctxHost⟩

/-- The C1 trace: one failing capture frame, then recovered frames. -/
def c1Frames : Nat → Frame := fun n => if n = 0 then c1FrameA else c1FrameB

unseal Rat.sub Rat.ofScientific Rat.add Rat.mul in
/-- Claim C1, counterexample: at frame 0 the delay (0) has elapsed and the
capture fails (no bound render target); the claim predicts the state stays
PendingCapture-equivalent and the capture is retried at frame 1 where the
condition has cleared.  The code instead clears the pending flag, so frame 1
issues no GPU call at all: nothing is captured, nothing is drawn. -/
theorem c1_counterexample :
    (outFrom initState c1Frames 0).ok = true ∧
    (stateFrom initState c1Frames 1).blur_capture_pending_ = false ∧
    (stateFrom initState c1Frames 1).background_captured_ = false ∧
    (stateFrom initState c1Frames 1).blur_enable_time_ = 0 ∧
    (outFrom initState c1Frames 1).eff = [] ∧
    (stateFrom initState c1Frames 2).background_captured_ = false ∧
    (stateFrom initState c1Frames 2).blur_processed_ = false ∧
    Effect.drawCommand ∉ (outFrom initState c1Frames 1).eff := by
  decide

/-- With the intent already on in the previous frame, an idle activation view
(nothing pending, nothing processed) is a fixed point of the activation step:
no edge fires and no capture attempt is made. -/
theorem actStep_idle (t d : ℚ) (succ : Bool) (s : ℚ) :
    actStep true t d succ ⟨false, false, s, true⟩ = ⟨false, false, s, true⟩ := by
  simp [actStep]

/-- Claim C1 as amended: if the debounce delay has elapsed and the
targets-or-capture attempt fails on that frame, the activation timestamp is
indeed not re-stamped — but the pending flag is cleared unconditionally
before the attempt, so the state is not PendingCapture-equivalent and, with
the intent continuously true, no retry happens on any later frame: no frame
of the run issues a draw command, and after every frame the pending and
processed flags are false and the timestamp is unchanged — the renderer
stays inactive until a reset. -/
theorem c1_capture_failure_no_retry (dev : Nat) (w h : ℚ) (fr : Nat → Frame) (r : RState)
    (hww : 0 < truncRat w) (hwh : 0 < truncRat h)
    (hwf : ∀ n, wfFrame dev w h (fr n) = true)
    (hsb : ∀ n, (fr n).shouldBlur = true)
    (hst : steady dev w h r = true)
    (hel : r.blur_enabled_last_frame_ = true)
    (hp : r.blur_capture_pending_ = true) (hpr : r.blur_processed_ = false)
    (hdel : (fr 0).params.delay_time ≤ (fr 0).time - r.blur_enable_time_)
    (hfail : captureSucc (fr 0) r = false) :
    (outFrom r fr 0).ok = true ∧
    ∀ n, Effect.drawCommand ∉ (outFrom r fr n).eff ∧
      (stateFrom r fr (n + 1)).blur_capture_pending_ = false ∧
      (stateFrom r fr (n + 1)).blur_processed_ = false ∧
      (stateFrom r fr (n + 1)).blur_enable_time_ = r.blur_enable_time_ := by
  have key : ∀ n, steady dev w h (stateFrom r fr (n + 1)) = true ∧
      actOf (stateFrom r fr (n + 1)) =
        ⟨false, false, r.blur_enable_time_, true⟩ ∧
      Effect.drawCommand ∉ (outFrom r fr n).eff ∧
      (outFrom r fr n).ok = true := by
    intro n
    induction n with
    | zero =>
      obtain ⟨o1, o2, o3, o4, _⟩ :=
        renderFrame_steady dev w h (fr 0) r (hwf 0) hww hwh hst
      have hact1 : actOf (renderFrame (fr 0) r).r =
          ⟨false, false, r.blur_enable_time_, true⟩ := by
        rw [o3]
        simp [actStep, actOf, hsb 0, hel, hp, hpr, hdel, hfail]
      have hproc : (renderFrame (fr 0) r).r.blur_processed_ = false :=
        congrArg ActView.processed hact1
      refine ⟨o2, hact1, ?_, o1⟩
      show Effect.drawCommand ∉ (renderFrame (fr 0) r).eff
      rw [o4]
      simp [hproc]
    | succ n ih =>
      obtain ⟨p1, p2, p3, p4, _⟩ :=
        renderFrame_steady dev w h (fr (n + 1)) (stateFrom r fr (n + 1))
          (hwf (n + 1)) hww hwh ih.1
      rw [ih.2.1, hsb (n + 1), actStep_idle] at p3
      have hproc :
          (renderFrame (fr (n + 1)) (stateFrom r fr (n + 1))).r.blur_processed_ = false :=
        congrArg ActView.processed p3
      refine ⟨p2, p3, ?_, p1⟩
      show Effect.drawCommand ∉ (renderFrame (fr (n + 1)) (stateFrom r fr (n + 1))).eff
      rw [p4]
      simp [hproc]
  refine ⟨(key 0).2.2.2, ?_⟩
  intro n
  obtain ⟨_, ha, hnd, _⟩ := key n
  exact ⟨hnd, congrArg ActView.pending ha, congrArg ActView.processed ha,
    congrArg ActView.stamp ha⟩

/-- The steady pending state from which C1's witness runs. -/
def c1StartState : RState :=
  { initState with
      initialized_ := true, device_ := some 0, width_ := 100, height_ := 50,
      blur_capture_pending_ := true, blur_enabled_last_frame_ := true }

unseal Rat.sub Rat.ofScientific Rat.add Rat.mul in
/-- Witness for C1's amended theorem: the capture fails at frame 0 (no bound
render target) and, although the condition clears from frame 1 on, no frame
of the run draws and the pending and processed flags stay false with the
timestamp unchanged. -/
theorem c1_capture_failure_no_retry_witness :
    wfFrame 0 100 50 c1FrameA = true ∧ wfFrame 0 100 50 c1FrameB = true ∧
    steady 0 100 50 c1StartState = true ∧
    captureSucc c1FrameA c1StartState = false ∧
    (outFrom c1StartState c1Frames 0).ok = true ∧
    Effect.drawCommand ∉ (outFrom c1StartState c1Frames 1).eff ∧
    (stateFrom c1StartState c1Frames 2).blur_capture_pending_ = false ∧
    (stateFrom c1StartState c1Frames 2).blur_processed_ = false ∧
    (stateFrom c1StartState c1Frames 2).blur_enable_time_ =
      c1StartState.blur_enable_time_ := by
  have h := c1_capture_failure_no_retry 0 100 50 c1Frames c1StartState
    (by decide) (by decide)
    (fun n => by
      show wfFrame 0 100 50 (if n = 0 then c1FrameA else c1FrameB) = true
      split
      · decide
      · decide)
    (fun n => by
      show (if n = 0 then c1FrameA else c1FrameB).shouldBlur = true
      split
      · decide
      · decide)
    (by decide) (by decide) (by decide) (by decide) (by decide) (by decide)
  exact ⟨by decide, by decide, by decide, by decide, h.1,
    (h.2 1).1, (h.2 1).2.1, (h.2 1).2.2.1, (h.2 1).2.2.2⟩

/-! ### Claim C2 -/

/-- Frame 0 of the C2 trace: intent on at 200×100, no debounce delay, every
GPU call succeeding, render target bound: the blur activates and is drawn. -/
def c2FrameA : Frame := ⟨mkParams (200, 100) 0, true, 0, envAllOk, ctxHost⟩

/-- Frame 1 of the C2 trace: the window resized to 300×150, intent still on. -/
def c2FrameB : Frame := ⟨mkParams (300, 150) 0, true, 1, envAllOk, ctxHost⟩

/-- Frame 2 of the C2 trace: the new size again, intent still on, one second
later — far beyond any fresh debounce delay, with every GPU call succeeding. -/
def c2FrameC : Frame := ⟨mkParams (300, 150) 0, true, 2, envAllOk, ctxHost⟩

/-- The C2 trace: activate and draw, resize, then hold the new size. -/
def c2Frames : Nat → Frame :=
  fun n => if n = 0 then c2FrameA else if n = 1 then c2FrameB else c2FrameC

unseal Rat.sub Rat.ofScientific Rat.add Rat.mul in
/-- Claim C2, counterexample: the blur is drawn at frame 0 (active and
captured at 200×100) and, as the claim says, is no longer drawn on the resize
frame 1 — but the state after the resize is not PendingCapture-equivalent
(the pending flag is false), and at frame 2, although a fresh delay of 0 has
elapsed and every capture-related GPU call would succeed, no blur is drawn
and the state is still inert: the blur never reappears at the new size. -/
theorem c2_counterexample :
    Effect.drawCommand ∈ (outFrom initState c2Frames 0).eff ∧
    (stateFrom initState c2Frames 1).blur_processed_ = true ∧
    (outFrom initState c2Frames 1).ok = true ∧
    Effect.drawCommand ∉ (outFrom initState c2Frames 1).eff ∧
    (stateFrom initState c2Frames 2).blur_capture_pending_ = false ∧
    (stateFrom initState c2Frames 2).blur_processed_ = false ∧
    (outFrom initState c2Frames 2).ok = true ∧
    Effect.drawCommand ∉ (outFrom initState c2Frames 2).eff ∧
    (stateFrom initState c2Frames 3).blur_capture_pending_ = false ∧
    (stateFrom initState c2Frames 3).blur_processed_ = false := by
  decide

/-- Claim C2 as amended: a width/height change does force a full reset, and
the blur is immediately no longer drawn — but the reset clears the pending
flag while `blur_enabled_last_frame_` stays true, so with continuously true
intent no new activation edge ever fires: on every later frame, whatever its
time and however healthy its GPU environment, the pending and processed
flags stay false and no draw command is ever issued again at the new size. -/
theorem c2_resize_permanent (dev : Nat) (w h : ℚ) (fr : Nat → Frame) (r0 : RState)
    (hww : 0 < truncRat w) (hwh : 0 < truncRat h)
    (hwf : ∀ n, wfFrame dev w h (fr n) = true)
    (hsb : ∀ n, (fr n).shouldBlur = true)
    (hini : r0.initialized_ = true) (hdev : r0.device_ = some dev)
    (hne : r0.width_ ≠ truncRat w ∨ r0.height_ ≠ truncRat h)
    (hel : r0.blur_enabled_last_frame_ = true) :
    ∀ n, Effect.drawCommand ∉ (outFrom r0 fr n).eff ∧
      (stateFrom r0 fr (n + 1)).blur_capture_pending_ = false ∧
      (stateFrom r0 fr (n + 1)).blur_processed_ = false := by
  have key : ∀ n, steady dev w h (stateFrom r0 fr (n + 1)) = true ∧
      actOf (stateFrom r0 fr (n + 1)) =
        ⟨false, false, r0.blur_enable_time_, true⟩ ∧
      Effect.drawCommand ∉ (outFrom r0 fr n).eff := by
    intro n
    induction n with
    | zero =>
      obtain ⟨_, o2, o3, o4⟩ :=
        renderFrame_resize dev w h (fr 0) r0 (hwf 0) hww hwh hini hdev hne
      rw [hsb 0, hel, actStep_idle] at o3
      have hproc : (renderFrame (fr 0) r0).r.blur_processed_ = false :=
        congrArg ActView.processed o3
      refine ⟨o2, o3, ?_⟩
      show Effect.drawCommand ∉ (renderFrame (fr 0) r0).eff
      rw [o4]
      simp [hproc]
    | succ n ih =>
      obtain ⟨p1, p2, p3, p4, _⟩ :=
        renderFrame_steady dev w h (fr (n + 1)) (stateFrom r0 fr (n + 1))
          (hwf (n + 1)) hww hwh ih.1
      rw [ih.2.1, hsb (n + 1), actStep_idle] at p3
      have hproc :
          (renderFrame (fr (n + 1)) (stateFrom r0 fr (n + 1))).r.blur_processed_ = false :=
        congrArg ActView.processed p3
      refine ⟨p2, p3, ?_⟩
      show Effect.drawCommand ∉ (renderFrame (fr (n + 1)) (stateFrom r0 fr (n + 1))).eff
      rw [p4]
      simp [hproc]
  intro n
  obtain ⟨_, ha, hnd⟩ := key n
  exact ⟨hnd, congrArg ActView.pending ha, congrArg ActView.processed ha⟩

/-- The steady state from which C2's witness runs: initialized at 200×100
with the intent already on in the previous frame. -/
def c2StartState : RState :=
  { initState with
      initialized_ := true, device_ := some 0, width_ := 200, height_ := 100,
      blur_enabled_last_frame_ := true }

unseal Rat.sub Rat.ofScientific Rat.add Rat.mul in
/-- Witness for C2's amended theorem: a resize to 300×150 with intent held
true and a healthy GPU environment on every later frame. -/
theorem c2_resize_permanent_witness :
    (0 : ℤ) < truncRat 300 ∧ (0 : ℤ) < truncRat 150 ∧
    wfFrame 0 300 150 c2FrameC = true ∧
    c2StartState.width_ ≠ truncRat 300 ∧
    Effect.drawCommand ∉ (outFrom c2StartState (fun _ => c2FrameC) 0).eff ∧
    (stateFrom c2StartState (fun _ => c2FrameC) 1).blur_capture_pending_ = false ∧
    (stateFrom c2StartState (fun _ => c2FrameC) 1).blur_processed_ = false := by
  have h := c2_resize_permanent 0 300 150 (fun _ => c2FrameC) c2StartState
    (by decide) (by decide)
    (fun _ => by show wfFrame 0 300 150 c2FrameC = true; decide)
    (fun _ => by show c2FrameC.shouldBlur = true; decide)
    (by decide) (by decide) (Or.inl (by decide)) (by decide) 0
  exact ⟨by decide, by decide, by decide, by decide, h.1, h.2.1, h.2.2⟩

/-! ### Claim C4 -/

/-- A frame with the intent off, used by C4's witness. -/
def c4Frame : Frame := ⟨mkParams (200, 100) 0.15, false, 0, envAllOk, ctxHost⟩

/-- Claim C4: on a run from the fresh renderer in which the intent is false
on every call, every well-formed call returns true, and no draw command, no
texture allocation and no view creation ever occurs — the first call only
performs the lazy pipeline initialization (shader compiles and fixed-function
device objects) and every later call is free of GPU-visible effects. -/
theorem c4_inactive (dev : Nat) (w h : ℚ) (fr : Nat → Frame)
    (hww : 0 < truncRat w) (hwh : 0 < truncRat h)
    (hwf : ∀ n, wfFrame dev w h (fr n) = true)
    (hsb : ∀ n, (fr n).shouldBlur = false) :
    ∀ n, (outFrom initState fr n).ok = true ∧
      Effect.drawCommand ∉ (outFrom initState fr n).eff ∧
      Effect.createTexture ∉ (outFrom initState fr n).eff ∧
      Effect.createView ∉ (outFrom initState fr n).eff := by
  have key : ∀ n, (outFrom initState fr n).ok = true ∧
      (outFrom initState fr n).eff = (if n = 0 then initEffects else []) ∧
      steady dev w h (stateFrom initState fr (n + 1)) = true := by
    intro n
    induction n with
    | zero =>
      obtain ⟨o1, o2, _, _, o5⟩ :=
        renderFrame_first dev w h (fr 0) (hwf 0) hww hwh
      exact ⟨o1, by rw [if_pos rfl]; exact o5 (hsb 0), o2⟩
    | succ n ih =>
      obtain ⟨p1, p2, _, _, p5⟩ :=
        renderFrame_steady dev w h (fr (n + 1)) (stateFrom initState fr (n + 1))
          (hwf (n + 1)) hww hwh ih.2.2
      exact ⟨p1, by rw [if_neg (Nat.succ_ne_zero n)]; exact p5 (hsb (n + 1)), p2⟩
  intro n
  obtain ⟨h1, h2, _⟩ := key n
  rw [h2]
  by_cases hn : n = 0
  · rw [if_pos hn]
    exact ⟨h1, by decide, by decide, by decide⟩
  · rw [if_neg hn]
    exact ⟨h1, by simp, by simp, by simp⟩

unseal Rat.ofScientific in
/-- Witness for C4 on ten consecutive inactive frames: the tenth call
returns true and has issued no draw command. -/
theorem c4_inactive_witness :
    (0 : ℤ) < truncRat 200 ∧ (0 : ℤ) < truncRat 100 ∧
    wfFrame 0 200 100 c4Frame = true ∧ c4Frame.shouldBlur = false ∧
    (outFrom initState (fun _ => c4Frame) 9).ok = true ∧
    Effect.drawCommand ∉ (outFrom initState (fun _ => c4Frame) 9).eff ∧
    Effect.createTexture ∉ (outFrom initState (fun _ => c4Frame) 9).eff := by
  have h := c4_inactive 0 200 100 (fun _ => c4Frame) (by decide) (by decide)
    (fun _ => by show wfFrame 0 200 100 c4Frame = true; decide)
    (fun _ => by show c4Frame.shouldBlur = false; decide) 9
  exact ⟨by decide, by decide, by decide, by decide, h.1, h.2.1, h.2.2.1⟩

/-! ### Claim C3 -/

/-- The debounce invariant on an activation view after frame `n` of a run:
the previous-intent flag records frame `n`'s intent; a raised pending or
processed flag traces back to an activation edge `j` with the intent held
true continuously since; and a raised processed flag moreover means the
configured delay had elapsed since that edge by some frame up to `n`. -/
def actInv (fr : Nat → Frame) (d : ℚ) (n : Nat) (a : ActView) : Prop :=
  a.enabledLast = (fr n).shouldBlur ∧
  ((a.pending = true ∨ a.processed = true) →
    ∃ j, j ≤ n ∧ (fr j).shouldBlur = true ∧
      (j = 0 ∨ (fr (j - 1)).shouldBlur = false) ∧
      (∀ k, j ≤ k → k ≤ n → (fr k).shouldBlur = true) ∧
      a.stamp = (fr j).time) ∧
  (a.processed = true →
    ∃ j, j ≤ n ∧ (fr j).shouldBlur = true ∧
      (j = 0 ∨ (fr (j - 1)).shouldBlur = false) ∧
      (∀ k, j ≤ k → k ≤ n → (fr k).shouldBlur = true) ∧
      a.stamp = (fr j).time ∧ (fr j).time + d ≤ (fr n).time)

/-- An activation edge reachable with continuous intent up to frame `n`
extends to frame `n + 1` when the intent is still true there. -/
theorem exEdge_extend (fr : Nat → Frame) (n : Nat) (s : ℚ)
    (hsb : (fr (n + 1)).shouldBlur = true)
    (h : ∃ j, j ≤ n ∧ (fr j).shouldBlur = true ∧
      (j = 0 ∨ (fr (j - 1)).shouldBlur = false) ∧
      (∀ k, j ≤ k → k ≤ n → (fr k).shouldBlur = true) ∧ s = (fr j).time) :
    ∃ j, j ≤ n + 1 ∧ (fr j).shouldBlur = true ∧
      (j = 0 ∨ (fr (j - 1)).shouldBlur = false) ∧
      (∀ k, j ≤ k → k ≤ n + 1 → (fr k).shouldBlur = true) ∧ s = (fr j).time := by
  obtain ⟨j, hj, h1, h2, hc, hs⟩ := h
  refine ⟨j, hj.trans (Nat.le_succ n), h1, h2, ?_, hs⟩
  intro k hjk hkn
  rcases Nat.eq_or_lt_of_le hkn with he | hl
  · rw [he]; exact hsb
  · exact hc k hjk (Nat.lt_succ_iff.mp hl)

/-- The activation step of `render` preserves the debounce invariant. -/
theorem actInv_step (fr : Nat → Frame) (d : ℚ) (n : Nat) (a : ActView) (succ : Bool)
    (hmono : (fr n).time ≤ (fr (n + 1)).time)
    (ha : actInv fr d n a) :
    actInv fr d (n + 1)
      (actStep (fr (n + 1)).shouldBlur (fr (n + 1)).time d succ a) := by
  obtain ⟨hel, h3, h4⟩ := ha
  by_cases hsb : (fr (n + 1)).shouldBlur = true
  · by_cases hprev : a.enabledLast = true
    · by_cases hp : a.pending = true
      · by_cases hpr : a.processed = true
        · have hstep : actStep (fr (n + 1)).shouldBlur (fr (n + 1)).time d succ a =
              ⟨true, true, a.stamp, true⟩ := by
            simp [actStep, hsb, hprev, hp, hpr]
          rw [hstep]
          refine ⟨hsb.symm, ?_, ?_⟩
          · intro _
            exact exEdge_extend fr n a.stamp hsb (h3 (Or.inl hp))
          · intro _
            obtain ⟨j, hj, h1, h2, hc, hs, ht⟩ := h4 hpr
            refine ⟨j, hj.trans (Nat.le_succ n), h1, h2, ?_, hs, ht.trans hmono⟩
            intro k hjk hkn
            rcases Nat.eq_or_lt_of_le hkn with he | hl
            · rw [he]; exact hsb
            · exact hc k hjk (Nat.lt_succ_iff.mp hl)
        · by_cases hdel : d ≤ (fr (n + 1)).time - a.stamp
          · have hstep : actStep (fr (n + 1)).shouldBlur (fr (n + 1)).time d succ a =
                ⟨false, succ, a.stamp, true⟩ := by
              simp [actStep, hsb, hprev, hp, hpr, hdel]
            rw [hstep]
            refine ⟨hsb.symm, ?_, ?_⟩
            · intro _
              exact exEdge_extend fr n a.stamp hsb (h3 (Or.inl hp))
            · intro _
              obtain ⟨j, hj, h1, h2, hc, hs⟩ := h3 (Or.inl hp)
              refine ⟨j, hj.trans (Nat.le_succ n), h1, h2, ?_, hs, ?_⟩
              · intro k hjk hkn
                rcases Nat.eq_or_lt_of_le hkn with he | hl
                · rw [he]; exact hsb
                · exact hc k hjk (Nat.lt_succ_iff.mp hl)
              · rw [← hs]; linarith
          · have hstep : actStep (fr (n + 1)).shouldBlur (fr (n + 1)).time d succ a =
                ⟨true, false, a.stamp, true⟩ := by
              simp [actStep, hsb, hprev, hp, hpr, hdel]
            rw [hstep]
            refine ⟨hsb.symm, ?_, ?_⟩
            · intro _
              exact exEdge_extend fr n a.stamp hsb (h3 (Or.inl hp))
            · intro hf
              exact (Bool.false_ne_true hf).elim
      · have hstep : actStep (fr (n + 1)).shouldBlur (fr (n + 1)).time d succ a =
            ⟨false, a.processed, a.stamp, true⟩ := by
          simp [actStep, hsb, hprev, hp]
        rw [hstep]
        refine ⟨hsb.symm, ?_, ?_⟩
        · intro hor
          rcases hor with hf | hpro
          · exact (Bool.false_ne_true hf).elim
          · exact exEdge_extend fr n a.stamp hsb (h3 (Or.inr hpro))
        · intro hpro
          obtain ⟨j, hj, h1, h2, hc, hs, ht⟩ := h4 hpro
          refine ⟨j, hj.trans (Nat.le_succ n), h1, h2, ?_, hs, ht.trans hmono⟩
          intro k hjk hkn
          rcases Nat.eq_or_lt_of_le hkn with he | hl
          · rw [he]; exact hsb
          · exact hc k hjk (Nat.lt_succ_iff.mp hl)
    · have hprev' : (fr n).shouldBlur = false := by
        rw [← hel]; simpa using hprev
      by_cases hdel0 : d ≤ (0 : ℚ)
      · have hstep : actStep (fr (n + 1)).shouldBlur (fr (n + 1)).time d succ a =
            ⟨false, succ, (fr (n + 1)).time, true⟩ := by
          simp [actStep, hsb, hprev, hdel0]
        rw [hstep]
        refine ⟨hsb.symm, ?_, ?_⟩
        · intro _
          refine ⟨n + 1, le_refl _, hsb, Or.inr hprev', ?_, rfl⟩
          intro k hjk hkn
          have hk : k = n + 1 := Nat.le_antisymm hkn hjk
          rw [hk]; exact hsb
        · intro _
          refine ⟨n + 1, le_refl _, hsb, Or.inr hprev', ?_, rfl, by linarith⟩
          intro k hjk hkn
          have hk : k = n + 1 := Nat.le_antisymm hkn hjk
          rw [hk]; exact hsb
      · have hstep : actStep (fr (n + 1)).shouldBlur (fr (n + 1)).time d succ a =
            ⟨true, false, (fr (n + 1)).time, true⟩ := by
          simp [actStep, hsb, hprev, hdel0]
        rw [hstep]
        refine ⟨hsb.symm, ?_, ?_⟩
        · intro _
          refine ⟨n + 1, le_refl _, hsb, Or.inr hprev', ?_, rfl⟩
          intro k hjk hkn
          have hk : k = n + 1 := Nat.le_antisymm hkn hjk
          rw [hk]; exact hsb
        · intro hf
          exact (Bool.false_ne_true hf).elim
  · have hsb' : (fr (n + 1)).shouldBlur = false := by simpa using hsb
    by_cases hprev : a.enabledLast = true
    · have hstep : actStep (fr (n + 1)).shouldBlur (fr (n + 1)).time d succ a =
          ⟨false, false, a.stamp, false⟩ := by
        simp [actStep, hsb', hprev]
      rw [hstep]
      refine ⟨hsb'.symm, ?_, ?_⟩
      · intro hor
        rcases hor with hf | hf <;> exact (Bool.false_ne_true hf).elim
      · intro hf
        exact (Bool.false_ne_true hf).elim
    · have hprev' : (fr n).shouldBlur = false := by
        rw [← hel]; simpa using hprev
      have hstep : actStep (fr (n + 1)).shouldBlur (fr (n + 1)).time d succ a =
          ⟨a.pending, a.processed, a.stamp, false⟩ := by
        simp [actStep, hsb', hprev]
      rw [hstep]
      refine ⟨hsb'.symm, ?_, ?_⟩
      · intro hor
        obtain ⟨j, hj, _, _, hc, _⟩ := h3 hor
        have hcn := hc n hj (le_refl n)
        rw [hprev'] at hcn
        exact (Bool.false_ne_true hcn).elim
      · intro hpro
        obtain ⟨j, hj, _, _, hc, _⟩ := h3 (Or.inr hpro)
        have hcn := hc n hj (le_refl n)
        rw [hprev'] at hcn
        exact (Bool.false_ne_true hcn).elim

/-- The debounce invariant holds after the first activation step from the
all-false view of the fresh renderer. -/
theorem actInv_base (fr : Nat → Frame) (d : ℚ) (succ : Bool) :
    actInv fr d 0 (actStep (fr 0).shouldBlur (fr 0).time d succ ⟨false, false, 0, false⟩) := by
  by_cases hsb : (fr 0).shouldBlur = true
  · by_cases hdel0 : d ≤ (0 : ℚ)
    · have hstep : actStep (fr 0).shouldBlur (fr 0).time d succ ⟨false, false, 0, false⟩ =
          ⟨false, succ, (fr 0).time, true⟩ := by
        simp [actStep, hsb, hdel0]
      rw [hstep]
      refine ⟨hsb.symm, ?_, ?_⟩
      · intro _
        refine ⟨0, le_refl 0, hsb, Or.inl rfl, ?_, rfl⟩
        intro k h1 h2
        have hk : k = 0 := Nat.le_antisymm h2 h1
        rw [hk]; exact hsb
      · intro _
        refine ⟨0, le_refl 0, hsb, Or.inl rfl, ?_, rfl, by linarith⟩
        intro k h1 h2
        have hk : k = 0 := Nat.le_antisymm h2 h1
        rw [hk]; exact hsb
    · have hstep : actStep (fr 0).shouldBlur (fr 0).time d succ ⟨false, false, 0, false⟩ =
          ⟨true, false, (fr 0).time, true⟩ := by
        simp [actStep, hsb, hdel0]
      rw [hstep]
      refine ⟨hsb.symm, ?_, ?_⟩
      · intro _
        refine ⟨0, le_refl 0, hsb, Or.inl rfl, ?_, rfl⟩
        intro k h1 h2
        have hk : k = 0 := Nat.le_antisymm h2 h1
        rw [hk]; exact hsb
      · intro hf
        exact (Bool.false_ne_true hf).elim
  · have hsb' : (fr 0).shouldBlur = false := by simpa using hsb
    have hstep : actStep (fr 0).shouldBlur (fr 0).time d succ ⟨false, false, 0, false⟩ =
        ⟨false, false, 0, false⟩ := by
      simp [actStep, hsb']
    rw [hstep]
    refine ⟨hsb'.symm, ?_, ?_⟩
    · intro hor
      rcases hor with hf | hf <;> exact (Bool.false_ne_true hf).elim
    · intro hf
      exact (Bool.false_ne_true hf).elim

/-- Along any well-formed run from the fresh renderer with a fixed configured
delay and non-decreasing frame times, every post-frame state is steady and
its activation view satisfies the debounce invariant. -/
theorem debounce_invariant (dev : Nat) (w h d : ℚ) (fr : Nat → Frame)
    (hww : 0 < truncRat w) (hwh : 0 < truncRat h)
    (hwf : ∀ n, wfFrame dev w h (fr n) = true)
    (hd : ∀ n, (fr n).params.delay_time = d)
    (hmono : ∀ n, (fr n).time ≤ (fr (n + 1)).time) :
    ∀ n, steady dev w h (stateFrom initState fr (n + 1)) = true ∧
      actInv fr d n (actOf (stateFrom initState fr (n + 1))) := by
  intro n
  induction n with
  | zero =>
    obtain ⟨_, o2, o3, _, _⟩ := renderFrame_first dev w h (fr 0) (hwf 0) hww hwh
    refine ⟨o2, ?_⟩
    show actInv fr d 0 (actOf (renderFrame (fr 0) initState).r)
    rw [o3, hd 0]
    exact actInv_base fr d _
  | succ n ih =>
    obtain ⟨_, p2, p3, _, _⟩ :=
      renderFrame_steady dev w h (fr (n + 1)) (stateFrom initState fr (n + 1))
        (hwf (n + 1)) hww hwh ih.1
    refine ⟨p2, ?_⟩
    show actInv fr d (n + 1)
      (actOf (renderFrame (fr (n + 1)) (stateFrom initState fr (n + 1))).r)
    rw [p3, hd (n + 1)]
    exact actInv_step fr d n (actOf (stateFrom initState fr (n + 1))) _ (hmono n) ih.2

/-- Claim C3: on any well-formed run from the fresh renderer with a fixed
configured delay and non-decreasing frame times, a frame `i` that issues the
composite draw command admits an activation edge `j ≤ i` — the intent is true
at `j`, was false on the frame before (or `j` is the first frame) and stays
true continuously through `i` — with `(fr j).time + d ≤ (fr i).time`: the
draw occurs no earlier than the delay after the intent (most recently) became
true, so any deactivation fully resets the debounce timer. -/
theorem c3_debounce (dev : Nat) (w h d : ℚ) (fr : Nat → Frame)
    (hww : 0 < truncRat w) (hwh : 0 < truncRat h)
    (hwf : ∀ n, wfFrame dev w h (fr n) = true)
    (hd : ∀ n, (fr n).params.delay_time = d)
    (hmono : ∀ n, (fr n).time ≤ (fr (n + 1)).time)
    (i : Nat) (hdraw : Effect.drawCommand ∈ (outFrom initState fr i).eff) :
    ∃ j, j ≤ i ∧ (fr j).shouldBlur = true ∧
      (j = 0 ∨ (fr (j - 1)).shouldBlur = false) ∧
      (∀ k, j ≤ k → k ≤ i → (fr k).shouldBlur = true) ∧
      (fr j).time + d ≤ (fr i).time := by
  have inv := debounce_invariant dev w h d fr hww hwh hwf hd hmono
  have hproc : (stateFrom initState fr (i + 1)).blur_processed_ = true := by
    cases i with
    | zero =>
      obtain ⟨_, _, _, o4, _⟩ := renderFrame_first dev w h (fr 0) (hwf 0) hww hwh
      have hdraw' : Effect.drawCommand ∈ (renderFrame (fr 0) initState).eff := hdraw
      exact (o4.mp hdraw').2.1
    | succ n =>
      obtain ⟨_, _, _, p4, _⟩ :=
        renderFrame_steady dev w h (fr (n + 1)) (stateFrom initState fr (n + 1))
          (hwf (n + 1)) hww hwh (inv n).1
      have hdraw' : Effect.drawCommand ∈
          (renderFrame (fr (n + 1)) (stateFrom initState fr (n + 1))).eff := hdraw
      exact (p4.mp hdraw').2.1
  obtain ⟨_, _, h4⟩ := (inv i).2
  obtain ⟨j, hj, h1, h2, hc, _, ht⟩ := h4 hproc
  exact ⟨j, hj, h1, h2, hc, ht⟩

/-- The frame used by C3's witness: intent on, delay 0, a healthy GPU
environment and a bound render target. -/
def c3Frame : Frame := ⟨mkParams (200, 100) 0, true, 5, envAllOk, ctxHost⟩

unseal Rat.sub Rat.ofScientific Rat.add Rat.mul in
/-- Witness for C3 on a constant trace with delay 0: the draw at frame 0 is
traced to the activation edge at frame 0 with the delay already elapsed. -/
theorem c3_debounce_witness :
    Effect.drawCommand ∈ (outFrom initState (fun _ => c3Frame) 0).eff ∧
    ∃ j, j ≤ 0 ∧ ((fun _ : Nat => c3Frame) j).shouldBlur = true ∧
      (j = 0 ∨ ((fun _ : Nat => c3Frame) (j - 1)).shouldBlur = false) ∧
      (∀ k, j ≤ k → k ≤ 0 → ((fun _ : Nat => c3Frame) k).shouldBlur = true) ∧
      ((fun _ : Nat => c3Frame) j).time + 0 ≤ ((fun _ : Nat => c3Frame) 0).time := by
  have hdraw : Effect.drawCommand ∈ (outFrom initState (fun _ => c3Frame) 0).eff := by
    show Effect.drawCommand ∈ (renderFrame c3Frame initState).eff
    decide
  exact ⟨hdraw, c3_debounce 0 200 100 0 (fun _ => c3Frame) (by decide) (by decide)
    (fun _ => by show wfFrame 0 200 100 c3Frame = true; decide)
    (fun _ => by show c3Frame.params.delay_time = 0; decide)
    (fun _ => le_refl _) 0 hdraw⟩

end BlurSpec
